import Mathlib

/-!
Shallow embedding of the wasp WebAssembly interpreter (crate `wasp`,
sources under `src/`), covering the execution engine: values, the
operand/control stack, the stepping interpreter of `exec/runtime.rs`
(the snapshot's older stepper variant), and the standalone table and
memory operations of `exec/table.rs` / `exec/memory.rs` used by the
newer stepper in `exec/instr.rs`.

Conventions:
  * machine integers are `Int`/`Nat` with explicit `% 2^w` at the points
    where the Rust source wraps (`wrapping_*`, `as` casts); Rust release
    builds wrap unchecked `u32`/`u64` arithmetic the same way (debug
    builds panic at those points, which is noted where it matters);
  * Rust panics (`unwrap`, out-of-bounds `Vec` indexing, `unreachable!`,
    `todo!`, integer division by zero via `/`) are modelled by the
    `Res.panic` outcome;
  * the value stack, the label stack and the frame stack are Lean lists
    with the TOP at the HEAD (so `pop` is head, `push` is cons);
  * `f32`/`f64` payloads are carried as raw IEEE bit patterns (`Nat`);
    no claim in this development computes with floats.
-/

namespace Wasp

abbrev Addr := Nat

/-- Modelled from the spec: `PAGE_SIZE` is defined in the newer
`exec/runtime.rs`, which is absent from the snapshot (only referenced
from `exec/memory.rs` and `exec/store.rs`); the spec glossary fixes the
page size at 65,536 bytes. -/
def PAGE_SIZE : Nat := 65536

/-- Interpret an integer as Rust `u32` (the `as u32` cast). -/
def u32OfI32 (x : Int) : Nat := (x % (2 ^ 32 : Int)).toNat

/-- Interpret an `i32` as Rust `usize` on a 64-bit target
(the `as usize` cast sign-extends). -/
def usizeOfI32 (x : Int) : Nat := (x % (2 ^ 64 : Int)).toNat

/-- Interpret an `i32` as Rust `u64` (the `as u64` cast sign-extends). -/
def u64OfI32 (x : Int) : Nat := (x % (2 ^ 64 : Int)).toNat

/-- Reduce an integer to the signed 32-bit representative
(two's-complement wrap-around). -/
def wrap32 (x : Int) : Int := (x + 2 ^ 31) % 2 ^ 32 - 2 ^ 31

/-- Reduce an integer to the signed 64-bit representative. -/
def wrap64 (x : Int) : Int := (x + 2 ^ 63) % 2 ^ 64 - 2 ^ 63

/-- `exec/value.rs` `Ref`: a reference value. -/
inductive Ref : Type
  | null
  | func (a : Addr)
  | extrn (a : Addr)
deriving DecidableEq

/-- `exec/value.rs` `Value`: a tagged scalar. Floats carry raw bit
patterns. (The older `exec/stack.rs` declares its own `Value` whose ref
variants are payload-free tags; no arm of the older stepper constructs
or consumes a ref value, so the richer `exec/value.rs` type is used for
both variants.) -/
inductive Value : Type
  | I32 (v : Int)
  | I64 (v : Int)
  | F32 (bits : Nat)
  | F64 (bits : Nat)
  | ref (r : Ref)
deriving DecidableEq

/-- `binary/types.rs` `ValType`. -/
inductive ValType : Type
  | I32
  | I64
  | F32
  | F64
  | FuncRef
  | ExternRef
deriving DecidableEq

/-- `binary/types.rs` `RefType`. -/
inductive RefType : Type
  | FuncRef
  | ExternRef
deriving DecidableEq

/-- `binary/types.rs` `FuncType(ResultType, ResultType)`; field 0 is the
parameter list (`functype.0 .0` in the source), field 1 the results. -/
structure FuncType : Type where
  params : List ValType
  results : List ValType
deriving DecidableEq

/-- `binary/types.rs` `Limits`. -/
inductive Limits : Type
  | Min (min : Nat)
  | MinMax (min max : Nat)
deriving DecidableEq

/-- Modelled from the spec: `Limits::min` is referenced from
`exec/memory.rs` / `exec/table.rs` but not defined in the snapshot; it
reads the current minimum (the current page/element count, spec §3). -/
def Limits.min : Limits → Nat
  | .Min m => m
  | .MinMax m _ => m

/-- Modelled from the spec: `Limits::set_min` replaces the current
minimum, keeping the optional maximum. -/
def Limits.set_min : Limits → Nat → Limits
  | .Min _, m => .Min m
  | .MinMax _ mx, m => .MinMax m mx

/-- Modelled from the spec: `Limits::valid` holds when the minimum does
not exceed the declared maximum ("-1 iff the new size would violate the
declared limits", spec §8). -/
def Limits.valid : Limits → Bool
  | .Min _ => true
  | .MinMax m mx => decide (m ≤ mx)

/-- `binary/types.rs` `Mut`. -/
inductive Mut : Type
  | Const
  | Var
deriving DecidableEq

/-- `binary/types.rs` `GlobalType`. -/
structure GlobalType : Type where
  valtype : ValType
  mut_ : Mut
deriving DecidableEq

/-- `exec/trap.rs` `Trap`. (The older `trap.rs` in the snapshot names
the memory trap `MemoryOutOfRange`; `exec/memory.rs` uses
`MemoryOutOfBounds`, the name kept here.) -/
inductive EnvError : Type
  | NotFound
deriving DecidableEq

inductive Trap : Type
  | Unreachable
  | DivByZero
  | OutOfRange
  | TableOutOfRange
  | TableNullRef
  | MemoryOutOfBounds
  | NotFundRef
  | NotImplemented
  | FuncTypeNotMatch (expected found : FuncType)
  | Env (e : EnvError)
deriving DecidableEq

/-- Outcome of running a piece of Rust code: normal result, a returned
error (`Err`), or a Rust panic. -/
inductive Res (ε α : Type) : Type
  | ok (a : α)
  | err (e : ε)
  | panic
deriving DecidableEq

/-- `binary/instr.rs` `Block` (the block type); named `BlockT` because
`Block` is also an instruction constructor. -/
inductive BlockT : Type
  | Empty
  | ValTy (t : ValType)
  | TypeIdx (i : Nat)
deriving DecidableEq

/-- `binary/instr.rs` `Instr`, restricted to the constructors that the
embedded stepper arms dispatch on (all arms explicitly handled by the
`exec/runtime.rs` stepper; every other instruction falls into that
stepper's catch-all `NotImplemented` arm). -/
inductive Instr : Type
  | Unreachable
  | Nop
  | Block (bt : BlockT) (end_offset : Nat)
  | Loop (bt : BlockT)
  | If (bt : BlockT) (else_offset : Option Nat) (end_offset : Nat)
  | Br (l : Nat)
  | BrIf (l : Nat)
  | BrTable (indexs : List Nat) (default : Nat)
  | Return
  | Call (a : Nat)
  | LocalGet (l : Nat)
  | LocalSet (l : Nat)
  | LocalTee (l : Nat)
  | GlobalGet (i : Nat)
  | GlobalSet (i : Nat)
  | Drop
  | I32Const (a : Int)
  | I64Const (a : Int)
  | F32Const (bits : Nat)
  | F64Const (bits : Nat)
  | I32Add
  | I64Add
  | I32Sub
  | I64Sub
  | I32And
  | I64And
  | I64Xor
  | I32Mul
  | I64Mul
  | I32DivU
  | I64RemS
  | I32LeS
deriving DecidableEq

/-- `binary/module.rs` `ExportDesc`. -/
inductive ExportDesc : Type
  | Func (i : Nat)
  | Table (i : Nat)
  | Mem (i : Nat)
  | Global (i : Nat)
deriving DecidableEq

/-- `binary/module.rs` `Export`. -/
structure Export : Type where
  name : String
  desc : ExportDesc
deriving DecidableEq

/-- `binary/module.rs` `ImportDesc`. -/
inductive ImportDesc : Type
  | TypeIdx (i : Nat)
  | TableType (reftype : RefType) (limits : Limits)
  | MemType (limits : Limits)
  | GlobalTy (g : GlobalType)
deriving DecidableEq

/-- `binary/module.rs` `Import`. -/
structure Import : Type where
  module : String
  name : String
  desc : ImportDesc
deriving DecidableEq

/-- `binary/module.rs` `Func` (an `Expr` is its instruction list). -/
structure Func : Type where
  typeidx : Nat
  locals : List ValType
  body : List Instr
deriving DecidableEq

/-- `binary/module.rs` `Global`. -/
structure Global : Type where
  type_ : GlobalType
  value : List Instr
deriving DecidableEq

/-- `binary/module.rs` `Module`, restricted to the fields the
`exec/runtime.rs` orchestrator reads (`imports`, `globals`, `funcs`,
`types`, `start`, `exports`; that orchestrator allocates no tables,
memories, element or data segments). -/
structure Module : Type where
  types : List FuncType
  funcs : List Func
  imports : List Import
  globals : List Global
  exports : List Export
  start : Option Nat
deriving DecidableEq

/-! ## The older stack (`exec/stack.rs` in the snapshot) -/

/-- `exec/stack.rs` `Label` (no `cont` flag in the snapshot's stack). -/
structure OldLabel : Type where
  n : Nat
  offset : Nat
  pc : Nat
deriving DecidableEq

/-- `exec/stack.rs` `Frame` (field `local` is a Lean keyword, renamed
`locals`). -/
structure OldFrame : Type where
  n : Nat
  instance_addr : Addr
  locals : List Value
  pc : Nat
deriving DecidableEq

/-- `exec/stack.rs` `Stack`: three sequences, each with its top at the
head of the list. -/
structure OldStack : Type where
  values : List Value
  labels : List OldLabel
  frames : List OldFrame
deriving DecidableEq

def OldStack.push_value (s : OldStack) (v : Value) : OldStack :=
  { s with values := v :: s.values }

/-- `pop_value::<Value>()`; popping an empty stack panics. -/
def OldStack.pop_value : OldStack → Option (Value × OldStack)
  | ⟨[], _, _⟩ => none
  | ⟨v :: rest, ls, fs⟩ => some (v, ⟨rest, ls, fs⟩)

/-- `pop_value::<i32>()`: the `From<Value> for i32` extraction hits
`unreachable!` (a panic) on any other tag. -/
def OldStack.popI32 : OldStack → Option (Int × OldStack)
  | ⟨Value.I32 v :: rest, ls, fs⟩ => some (v, ⟨rest, ls, fs⟩)
  | _ => none

def OldStack.popI64 : OldStack → Option (Int × OldStack)
  | ⟨Value.I64 v :: rest, ls, fs⟩ => some (v, ⟨rest, ls, fs⟩)
  | _ => none

/-- `Stack::binary_op` for `i32` operands: pops the right-hand side,
then the left-hand side, and pushes `func lhs rhs`. -/
def OldStack.binary_op_i32 (s : OldStack) (func : Int → Int → Int) :
    Option OldStack :=
  match s.popI32 with
  | none => none
  | some (rhs, s1) =>
    match s1.popI32 with
    | none => none
    | some (lhs, s2) => some (s2.push_value (.I32 (func lhs rhs)))

def OldStack.binary_op_i64 (s : OldStack) (func : Int → Int → Int) :
    Option OldStack :=
  match s.popI64 with
  | none => none
  | some (rhs, s1) =>
    match s1.popI64 with
    | none => none
    | some (lhs, s2) => some (s2.push_value (.I64 (func lhs rhs)))

/-- `Stack::rel_op` for `i32` operands (same shape as `binary_op`). -/
def OldStack.rel_op_i32 (s : OldStack) (func : Int → Int → Int) :
    Option OldStack :=
  s.binary_op_i32 func

/-- Pop `k` values one at a time (`for _ in 0..k { pop_value() }`),
returning them in pop order (top first); panics when the stack runs
out. -/
def popNold : Nat → OldStack → Option (List Value × OldStack)
  | 0, s => some ([], s)
  | k + 1, s =>
    match s.pop_value with
    | none => none
    | some (v, s1) =>
      match popNold k s1 with
      | none => none
      | some (vs, s2) => some (v :: vs, s2)

/-- `Stack::jump` (`exec/stack.rs` lines 256-277, duplicated at
`exec/runtime.rs` lines 36-57): reads the `l`-th label from the top
(`th_label`, a panic when `l` is out of range), pops the label's `n`
result values, pops a further `values_len - offset` values one by one
and discards them (the `usize` subtraction underflows when `offset`
exceeds the remaining value count; debug builds panic there and release
builds wrap and then panic inside the pop loop), pops `l + 1` labels
unconditionally — there is no loop/`cont` distinction in this `jump` —
pushes the saved results back in reverse (restoring their original
order) and returns the label's continuation PC. -/
def OldStack.jump (s : OldStack) (l : Nat) : Option (Nat × OldStack) :=
  match s.labels.get? l with
  | none => none
  | some label =>
    match popNold label.n s with
    | none => none
    | some (values, s1) =>
      if label.offset ≤ s1.values.length then
        match popNold (s1.values.length - label.offset) s1 with
        | none => none
        | some (_, s2) =>
          some (label.pc,
            { s2 with
              values := values ++ s2.values,
              labels := s2.labels.drop (l + 1) })
      else none

/-! ## The older runtime (`exec/runtime.rs` in the snapshot) -/

/-- `exec/runtime.rs` `FuncInst` (identical in `exec/store.rs`). -/
inductive FuncInst : Type
  | InnerFunc (instance_addr : Addr) (start : Nat) (functype : FuncType)
      (locals : List ValType)
  | HostFunc (functype : FuncType) (name : String)
deriving DecidableEq

/-- `exec/runtime.rs` `GlobalInst` (identical in `exec/store.rs`). -/
structure GlobalInst : Type where
  globaltype : GlobalType
  value : Value
deriving DecidableEq

/-- `exec/runtime.rs` `Store` (the older store: functions and globals
only, plain vectors). -/
structure OldStore : Type where
  funcs : List FuncInst
  globals : List GlobalInst
deriving DecidableEq

/-- `exec/runtime.rs` `Instance`. -/
structure Instance : Type where
  funcaddrs : List Addr
  globaladdrs : List Addr
  types : List FuncType
  start : Option Nat
  exports : List Export
deriving DecidableEq

/-- `Instance::block_to_arity`; `types[idx]` panics when out of
range. -/
def Instance.block_to_arity (inst : Instance) : BlockT → Option Nat
  | .Empty => some 0
  | .ValTy _ => some 1
  | .TypeIdx idx =>
    match inst.types.get? idx with
    | none => none
    | some ft => some ft.results.length

/-- The older `Env::call` contract (`exec/env.rs` of the matching
revision): the host receives the name and the frame built at the call
site and returns result values or an error. Modelled as a pure
function. -/
def OldEnv : Type := String → OldFrame → Except EnvError (List Value)

/-- The `DebugEnv` host of the tests: `start` and `print` succeed with
no results, anything else is `NotFound`. -/
def debugEnvOld : OldEnv := fun name _ =>
  match name with
  | "start" => .ok []
  | "print" => .ok []
  | _ => .error .NotFound

/-- Zero-initialise declared locals (`exec/runtime.rs` `Call`,
InnerFunc arm): I32/I64 get 0, F32/F64 get +0.0; reference locals hit
`todo!()`, a panic. -/
def zeroLocal : ValType → Option Value
  | .I32 => some (.I32 0)
  | .I64 => some (.I64 0)
  | .F32 => some (.F32 0)
  | .F64 => some (.F64 0)
  | .FuncRef => none
  | .ExternRef => none

def zeroLocals : List ValType → Option (List Value)
  | [] => some []
  | t :: rest =>
    match zeroLocal t, zeroLocals rest with
    | some v, some vs => some (v :: vs)
    | _, _ => none

/-- Push a list of results one element at a time, left to right
(`for result in results { stack.push_value(result) }`). -/
def OldStack.push_values (s : OldStack) (results : List Value) : OldStack :=
  { s with values := results.reverse ++ s.values }

/-- Bitwise AND through the 32-bit two's-complement representations
(Rust `a & b` on `i32`). -/
def land32 (a b : Int) : Int :=
  wrap32 (Int.ofNat (Nat.land (u32OfI32 a) (u32OfI32 b)))

def land64 (a b : Int) : Int :=
  wrap64 (Int.ofNat (Nat.land (u64OfI32 a) (u64OfI32 b)))

def lxor64 (a b : Int) : Int :=
  wrap64 (Int.ofNat (Nat.xor (u64OfI32 a) (u64OfI32 b)))

/-- The stepper of `exec/runtime.rs` (the snapshot's older variant,
lines 417-599): executes the instruction at `pc` and returns `some`
next PC, or `none` when the frame stack emptied. Rust panics are
`Res.panic`; traps are `Res.err`. -/
def oldStep (env : OldEnv) (instances : List Instance) (instrs : List Instr)
    (pc : Nat) (store : OldStore) (stack : OldStack) :
    Res Trap (Option Nat × OldStore × OldStack) :=
  match stack.frames.head? with
  | none => .panic
  | some frame =>
  match instances.get? frame.instance_addr with
  | none => .panic
  | some inst =>
  match instrs.get? pc with
  | none => .panic
  | some instr =>
  match instr with
  | .I32Const a => .ok (some (pc + 1), store, stack.push_value (.I32 a))
  | .I64Const a => .ok (some (pc + 1), store, stack.push_value (.I64 a))
  | .F32Const bits => .ok (some (pc + 1), store, stack.push_value (.F32 bits))
  | .F64Const bits => .ok (some (pc + 1), store, stack.push_value (.F64 bits))
  | .I32Add =>
    match stack.binary_op_i32 (fun a b => wrap32 (a + b)) with
    | none => .panic
    | some s2 => .ok (some (pc + 1), store, s2)
  | .I64Add =>
    match stack.binary_op_i64 (fun a b => wrap64 (a + b)) with
    | none => .panic
    | some s2 => .ok (some (pc + 1), store, s2)
  | .I32Sub =>
    match stack.binary_op_i32 (fun a b => wrap32 (a - b)) with
    | none => .panic
    | some s2 => .ok (some (pc + 1), store, s2)
  | .I64Sub =>
    match stack.binary_op_i64 (fun a b => wrap64 (a - b)) with
    | none => .panic
    | some s2 => .ok (some (pc + 1), store, s2)
  | .I32And =>
    match stack.binary_op_i32 land32 with
    | none => .panic
    | some s2 => .ok (some (pc + 1), store, s2)
  | .I64And =>
    match stack.binary_op_i64 land64 with
    | none => .panic
    | some s2 => .ok (some (pc + 1), store, s2)
  | .I64Xor =>
    match stack.binary_op_i64 lxor64 with
    | none => .panic
    | some s2 => .ok (some (pc + 1), store, s2)
  | .I32Mul =>
    match stack.binary_op_i32 (fun a b => wrap32 (a * b)) with
    | none => .panic
    | some s2 => .ok (some (pc + 1), store, s2)
  | .I64Mul =>
    match stack.binary_op_i64 (fun a b => wrap64 (a * b)) with
    | none => .panic
    | some s2 => .ok (some (pc + 1), store, s2)
  | .I32DivU =>
    -- `stack.binary_op(|a: i32, b: i32| a / b)`: plain signed division;
    -- Rust `/` panics on a zero divisor and on `i32::MIN / -1`.
    match stack.popI32 with
    | none => .panic
    | some (b, s1) =>
      match s1.popI32 with
      | none => .panic
      | some (a, s2) =>
        if b = 0 ∨ (a = -(2 ^ 31) ∧ b = -1) then .panic
        else .ok (some (pc + 1), store, s2.push_value (.I32 (a.tdiv b)))
  | .I64RemS =>
    -- `wrapping_rem`: still panics on a zero divisor.
    match stack.popI64 with
    | none => .panic
    | some (b, s1) =>
      match s1.popI64 with
      | none => .panic
      | some (a, s2) =>
        if b = 0 then .panic
        else .ok (some (pc + 1), store, s2.push_value (.I64 (a.tmod b)))
  | .I32LeS =>
    match stack.rel_op_i32 (fun a b => if a ≤ b then 1 else 0) with
    | none => .panic
    | some s2 => .ok (some (pc + 1), store, s2)
  | .Nop => .ok (some (pc + 1), store, stack)
  | .Drop =>
    match stack.pop_value with
    | none => .panic
    | some (_, s1) => .ok (some (pc + 1), store, s1)
  | .Unreachable => .err .Unreachable
  | .Block bt end_offset =>
    match inst.block_to_arity bt with
    | none => .panic
    | some n =>
      .ok (some (pc + 1), store,
        { stack with
          labels := ⟨n, stack.values.length, end_offset + pc⟩ :: stack.labels })
  | .Loop bt =>
    match inst.block_to_arity bt with
    | none => .panic
    | some n =>
      .ok (some (pc + 1), store,
        { stack with labels := ⟨n, stack.values.length, pc⟩ :: stack.labels })
  | .If bt else_offset end_offset =>
    match stack.popI32 with
    | none => .panic
    | some (c, s1) =>
      match inst.block_to_arity bt with
      | none => .panic
      | some n =>
        if c ≠ 0 then
          .ok (some (pc + 1), store,
            { s1 with
              labels := ⟨n, s1.values.length, end_offset + pc⟩ :: s1.labels })
        else
          match else_offset with
          | some e =>
            .ok (some (e + pc), store,
              { s1 with
                labels := ⟨n, s1.values.length, end_offset + pc⟩ :: s1.labels })
          | none => .ok (some (end_offset + pc), store, s1)
  | .Br l =>
    match stack.jump l with
    | none => .panic
    | some (new_pc, s1) => .ok (some new_pc, store, s1)
  | .BrIf l =>
    match stack.popI32 with
    | none => .panic
    | some (c, s1) =>
      if c ≠ 0 then
        match s1.jump l with
        | none => .panic
        | some (new_pc, s2) => .ok (some new_pc, store, s2)
      else .ok (some (pc + 1), store, s1)
  | .BrTable indexs default =>
    -- `if i <= indexs.len() { jump(indexs[i]) } else { jump(default) }`:
    -- the bound uses `<=`, so `i == indexs.len()` indexes out of bounds
    -- (a Rust panic) instead of using the default.
    match stack.popI32 with
    | none => .panic
    | some (iv, s1) =>
      let i := usizeOfI32 iv
      if i ≤ indexs.length then
        match indexs.get? i with
        | none => .panic
        | some l =>
          match s1.jump l with
          | none => .panic
          | some (new_pc, s2) => .ok (some new_pc, store, s2)
      else
        match s1.jump default with
        | none => .panic
        | some (new_pc, s2) => .ok (some new_pc, store, s2)
  | .Return =>
    -- pops the frame's `n` results and pushes them straight back (a
    -- net no-op on the value stack, but a panic when fewer than `n`
    -- values remain); nothing below them is discarded.
    if frame.n ≤ stack.values.length then
      let fs1 := stack.frames.tail
      if fs1.isEmpty then .ok (none, store, { stack with frames := fs1 })
      else .ok (some frame.pc, store, { stack with frames := fs1 })
    else .panic
  | .Call a =>
    match store.funcs.get? a with
    | none => .panic
    | some func =>
      match func with
      | .HostFunc functype name =>
        -- parameters are popped top-first and NOT reversed before the
        -- host call.
        match popNold functype.params.length stack with
        | none => .panic
        | some (locals, s1) =>
          let new_frame : OldFrame :=
            ⟨functype.results.length, frame.instance_addr, locals, pc + 1⟩
          match env name new_frame with
          | .error e => .err (.Env e)
          | .ok results => .ok (some (pc + 1), store, s1.push_values results)
      | .InnerFunc instance_addr start functype locals_decl =>
        -- parameters popped top-first, not reversed; declared locals
        -- are zero-initialised (`todo!()`, a panic, for ref locals).
        match popNold functype.params.length stack with
        | none => .panic
        | some (locals0, s1) =>
          match zeroLocals locals_decl with
          | none => .panic
          | some zeros =>
            let new_frame : OldFrame :=
              ⟨functype.results.length, instance_addr, locals0 ++ zeros, pc + 1⟩
            .ok (some start, store, { s1 with frames := new_frame :: s1.frames })
  | .LocalGet l =>
    match frame.locals.get? l with
    | none => .panic
    | some v => .ok (some (pc + 1), store, stack.push_value v)
  | .LocalSet l =>
    match stack.pop_value with
    | none => .panic
    | some (v, s1) =>
      if l < frame.locals.length then
        .ok (some (pc + 1), store,
          { s1 with
            frames := { frame with locals := frame.locals.set l v } ::
              s1.frames.tail })
      else .panic
  | .LocalTee l =>
    match stack.pop_value with
    | none => .panic
    | some (v, s1) =>
      if l < frame.locals.length then
        .ok (some (pc + 1), store,
          { s1 with
            values := v :: s1.values,
            frames := { frame with locals := frame.locals.set l v } ::
              s1.frames.tail })
      else .panic
  | .GlobalGet i =>
    match inst.globaladdrs.get? i with
    | none => .panic
    | some gi =>
      match store.globals.get? gi with
      | none => .panic
      | some g => .ok (some (pc + 1), store, stack.push_value g.value)
  | .GlobalSet i =>
    match stack.pop_value with
    | none => .panic
    | some (v, s1) =>
      match inst.globaladdrs.get? i with
      | none => .panic
      | some gi =>
        match store.globals.get? gi with
        | none => .panic
        | some g =>
          .ok (some (pc + 1),
            { store with globals := store.globals.set gi { g with value := v } },
            s1)

/-! ## Orchestration (`exec/runtime.rs`: `eval_const`, `allocate_func`,
`new_instance`, `Runtime::new`, `invoke`, `exec`) -/

/-- `exec/runtime.rs` `RuntimeError`. -/
inductive RuntimeError : Type
  | ModuleNotFound (name : String)
  | FunctionNotFound (name : String)
  | NotFunction (name : String) (desc : ExportDesc)
  | Env (e : EnvError)
  | ConstantExpression
  | Trap (t : Trap)
deriving DecidableEq

/-- `exec/runtime.rs` `eval_const`: reads `expr.0[0]` (a panic when the
expression is empty). -/
def eval_const (expr : List Instr) : Res RuntimeError Value :=
  match expr.get? 0 with
  | none => .panic
  | some (.I32Const v) => .ok (.I32 v)
  | some (.I64Const v) => .ok (.I64 v)
  | some (.F32Const bits) => .ok (.F32 bits)
  | some (.F64Const bits) => .ok (.F64 bits)
  | some _ => .err .ConstantExpression

/-- The mutable runtime of `exec/runtime.rs` (the transient `stack` and
`pc` are threaded through `exec` separately; the importer of the tests,
`DefaultImporter::new()`, holds no modules and is modelled by the
`ModuleNotFound` branch of import resolution below). -/
structure OldRuntime : Type where
  env_name : String
  instrs : List Instr
  root : Nat
  instances : List Instance
  store : OldStore
deriving DecidableEq

/-- `Runtime::allocate_func`: appends the body plus a synthetic
`Return` to the shared instruction buffer and registers an `InnerFunc`
whose `start` is the previous buffer length. -/
def allocate_func (rt : OldRuntime) (functype : FuncType)
    (locals : List ValType) (body : List Instr) (instance_addr : Addr) :
    OldRuntime × Addr :=
  let start := rt.instrs.length
  ({ rt with
      instrs := rt.instrs ++ body ++ [Instr.Return],
      store :=
        { rt.store with
          funcs :=
            rt.store.funcs ++ [.InnerFunc instance_addr start functype locals] } },
    rt.store.funcs.length)

/-- `Store::allocate_env_func`. -/
def allocate_env_func (store : OldStore) (functype : FuncType)
    (name : String) : OldStore × Addr :=
  ({ store with funcs := store.funcs ++ [.HostFunc functype name] },
    store.funcs.length)

/-- `Store::update_func_inst`: patch the `instance_addr` of the listed
inner functions. -/
def update_func_inst (store : OldStore) (funcaddrs : List Addr)
    (instance_addr : Addr) : OldStore :=
  funcaddrs.foldl
    (fun st addr =>
      match st.funcs.get? addr with
      | some (.InnerFunc _ start functype locals) =>
        { st with
          funcs := st.funcs.set addr (.InnerFunc instance_addr start functype locals) }
      | _ => st)
    store

/-- Import resolution of `new_instance`: function imports from the env
module allocate a `HostFunc` (`module.types[idx]` panics when out of
range); any other module name goes through `get_func_addr`, whose first
action is `importer.import(modname)` — with the tests' empty
`DefaultImporter` this is `None`, so the result is `ModuleNotFound`
before any recursive instantiation. Non-function imports are
skipped. -/
def allocImports (envName : String) (types : List FuncType) :
    List Import → OldStore → List Addr → Res RuntimeError (OldStore × List Addr)
  | [], store, acc => .ok (store, acc)
  | imp :: rest, store, acc =>
    match imp.desc with
    | .TypeIdx idx =>
      if imp.module = envName then
        match types.get? idx with
        | none => .panic
        | some ft =>
          let (store2, addr) := allocate_env_func store ft imp.name
          allocImports envName types rest store2 (acc ++ [addr])
      else .err (.ModuleNotFound imp.module)
    | _ => allocImports envName types rest store acc

/-- Global allocation loop of `new_instance`
(`Store::allocate_global`). -/
def allocGlobals :
    List Global → OldStore → List Addr → Res RuntimeError (OldStore × List Addr)
  | [], store, acc => .ok (store, acc)
  | g :: rest, store, acc =>
    match eval_const g.value with
    | .panic => .panic
    | .err e => .err e
    | .ok v =>
      let store2 :=
        { store with globals := store.globals ++ [⟨g.type_, v⟩] }
      allocGlobals rest store2 (acc ++ [store.globals.length])

/-- Function allocation loop of `new_instance`
(`module.types[func.typeidx]` panics when out of range). -/
def allocFuncs (types : List FuncType) (instance_addr : Addr) :
    List Func → OldRuntime → List Addr →
    Res RuntimeError (OldRuntime × List Addr)
  | [], rt, acc => .ok (rt, acc)
  | f :: rest, rt, acc =>
    match types.get? f.typeidx with
    | none => .panic
    | some ft =>
      let (rt2, addr) := allocate_func rt ft f.locals f.body instance_addr
      allocFuncs types instance_addr rest rt2 (acc ++ [addr])

/-- `Runtime::new_instance`: resolve imports, allocate globals, append
the function bodies to the shared instruction buffer, patch the
instance address, and build the `Instance`. -/
def new_instance (rt : OldRuntime) (m : Module) :
    Res RuntimeError (OldRuntime × Instance) :=
  match allocImports rt.env_name m.types m.imports rt.store [] with
  | .panic => .panic
  | .err e => .err e
  | .ok (store1, funcaddrs0) =>
    match allocGlobals m.globals store1 [] with
    | .panic => .panic
    | .err e => .err e
    | .ok (store2, globaladdrs) =>
      let rt1 := { rt with store := store2 }
      match allocFuncs m.types rt1.instances.length m.funcs rt1 [] with
      | .panic => .panic
      | .err e => .err e
      | .ok (rt2, inner_funcaddrs) =>
        let instance_addr := rt2.instances.length
        let rt3 :=
          { rt2 with
            store := update_func_inst rt2.store inner_funcaddrs instance_addr }
        .ok (rt3,
          { funcaddrs := funcaddrs0 ++ inner_funcaddrs,
            globaladdrs := globaladdrs,
            types := m.types,
            start := m.start,
            exports := m.exports })

/-- `Runtime::new` / `debug_runtime`: a fresh runtime for one module
(env name `"env"`, empty importer), pushing the instance and setting
`root` to it. -/
def newRuntime (envName : String) (m : Module) :
    Res RuntimeError OldRuntime :=
  let rt0 : OldRuntime := ⟨envName, [], 0, [], ⟨[], []⟩⟩
  match new_instance rt0 m with
  | .panic => .panic
  | .err e => .err e
  | .ok (rt1, inst) =>
    let rt2 := { rt1 with instances := rt1.instances ++ [inst] }
    .ok { rt2 with root := rt2.instances.length - 1 }

/-- The stepping loop of `Runtime::exec`
(`while self.step()? == Continue`), with explicit fuel; `none` means
the fuel ran out (never a statement about the program). -/
def oldRun (env : OldEnv) (instances : List Instance) (instrs : List Instr) :
    Nat → Nat → OldStore → OldStack → Option (Res Trap (OldStore × OldStack))
  | 0, _, _, _ => none
  | fuel + 1, pc, store, stack =>
    match oldStep env instances instrs pc store stack with
    | .panic => some .panic
    | .err t => some (.err t)
    | .ok (none, store2, stack2) => some (.ok (store2, stack2))
    | .ok (some pc2, store2, stack2) => oldRun env instances instrs fuel pc2 store2 stack2

/-- `Runtime::exec`: runs on a fresh stack holding only the activation
frame and finally drains the whole value stack (`get_returns`), bottom
value first. -/
def oldExec (env : OldEnv) (rt : OldRuntime) (frame : OldFrame)
    (start : Nat) (fuel : Nat) : Option (Res Trap (List Value)) :=
  match oldRun env rt.instances rt.instrs fuel start rt.store ⟨[], [], [frame]⟩ with
  | none => none
  | some .panic => some .panic
  | some (.err t) => some (.err t)
  | some (.ok (_, stack2)) => some (.ok stack2.values.reverse)

/-- `Runtime::invoke` (`exec/runtime.rs` lines 345-389): locate the
export, and for an `InnerFunc` build a frame whose `locals` are the
caller's `params` verbatim (no arity or type check, no zero-initialised
slots for the declared locals) and drive `exec`. -/
def invoke (env : OldEnv) (rt : OldRuntime) (name : String)
    (params : List Value) (fuel : Nat) :
    Option (Res RuntimeError (List Value)) :=
  match rt.instances.get? rt.root with
  | none => some .panic
  | some inst =>
    match inst.exports.find? (fun e => e.name = name) with
    | none => some (.err (.FunctionNotFound name))
    | some exp =>
      match exp.desc with
      | .Func index =>
        match inst.funcaddrs.get? index with
        | none => some .panic
        | some funcaddr =>
          match rt.store.funcs.get? funcaddr with
          | none => some .panic
          | some (.HostFunc _ hostname) =>
            match env hostname ⟨0, rt.root, [], 0⟩ with
            | .error e => some (.err (.Env e))
            | .ok results => some (.ok results)
          | some (.InnerFunc _ start functype _) =>
            let frame : OldFrame := ⟨functype.results.length, rt.root, params, 0⟩
            match oldExec env rt frame start fuel with
            | none => none
            | some .panic => some .panic
            | some (.err t) => some (.err (.Trap t))
            | some (.ok results) => some (.ok results)
      | desc => some (.err (.NotFunction name desc))

/-- Build a runtime for `m` (env `"env"`, empty importer, as in the
tests' `debug_runtime`) and invoke the export `name`. -/
def invokeModule (m : Module) (name : String) (params : List Value)
    (fuel : Nat) : Option (Res RuntimeError (List Value)) :=
  match newRuntime "env" m with
  | .panic => some .panic
  | .err e => some (.err e)
  | .ok rt => invoke debugEnvOld rt name params fuel

/-! ## The newer store and stack
(`exec/opt_vec.rs`, `exec/store.rs`; the newer stack and instance
modules are absent from the snapshot and are modelled from spec §3/§4.2
and their construction sites in `exec/instr.rs`.) -/

/-- `exec/opt_vec.rs` `OptVec`: a slot vector with a free list. -/
structure OptVec (α : Type) : Type where
  inner : List (Option α)
  free : List Nat
deriving DecidableEq

def OptVec.ofList (l : List α) : OptVec α := ⟨l.map some, []⟩

/-- `Index for OptVec`: `inner[i].as_ref().unwrap()` — `none` here
models the Rust panic (index out of bounds or an empty slot). -/
def OptVec.idx? (v : OptVec α) (i : Nat) : Option α :=
  (v.inner.get? i).bind id

/-- `OptVec::push`: reuse a free slot when possible, else append.
(The free list only ever holds in-bounds indices of occupied-then-freed
slots, so `List.set` matches the Rust slot assignment.) -/
def OptVec.push (v : OptVec α) (a : α) : OptVec α × Nat :=
  match v.free with
  | i :: rest => (⟨v.inner.set i (some a), rest⟩, i)
  | [] => (⟨v.inner ++ [some a], []⟩, v.inner.length)

/-- `IndexMut for OptVec`, used after a successful `idx?`. -/
def OptVec.setIdx (v : OptVec α) (i : Nat) (a : α) : OptVec α :=
  { v with inner := v.inner.set i (some a) }

/-- `exec/store.rs` `TableInst` (its `tabletype` is a `binary` `Table`:
a reftype plus limits). -/
structure TableT : Type where
  reftype : RefType
  limits : Limits
deriving DecidableEq

structure TableInst : Type where
  tabletype : TableT
  elem : List Ref
deriving DecidableEq

/-- `exec/store.rs` `MemInst`; `data` is the byte vector (each entry
< 256). -/
structure MemInst : Type where
  limits : Limits
  data : List Nat
deriving DecidableEq

/-- `exec/store.rs` `ElemInst`. -/
structure ElemInst : Type where
  reftype : RefType
  elem : List Ref
deriving DecidableEq

/-- `exec/store.rs` `DataInst`. -/
structure DataInst : Type where
  data : List Nat
deriving DecidableEq

/-- `exec/store.rs` `Store` (the newer, slot-allocated store). -/
structure NewStore : Type where
  globals : OptVec GlobalInst
  tables : OptVec TableInst
  mems : OptVec MemInst
  funcs : OptVec FuncInst
  elems : OptVec ElemInst
  datas : OptVec DataInst
deriving DecidableEq

def NewStore.empty : NewStore :=
  ⟨⟨[], []⟩, ⟨[], []⟩, ⟨[], []⟩, ⟨[], []⟩, ⟨[], []⟩, ⟨[], []⟩⟩

def NewStore.setTable (s : NewStore) (a : Nat) (t : TableInst) : NewStore :=
  { s with tables := s.tables.setIdx a t }

def NewStore.setMem (s : NewStore) (a : Nat) (m : MemInst) : NewStore :=
  { s with mems := s.mems.setIdx a m }

/-- Modelled from the spec: the newer `Label` (spec §4.2): result
arity, value-stack offset at entry, continuation PC, and the loop flag
`cont` (construction sites in `exec/instr.rs` lines 33-72). -/
structure NewLabel : Type where
  n : Nat
  stack_offset : Nat
  pc : Nat
  cont : Bool
deriving DecidableEq

/-- Modelled from the spec: the newer `Frame` (spec §4.2 plus the
construction site in `exec/instr.rs` `attach`). -/
structure NewFrame : Type where
  n : Nat
  instance_addr : Addr
  locals : List Value
  stack_offset : Nat
  pc : Nat
deriving DecidableEq

/-- The newer `Stack` (same three head-is-top sequences; the newer
stack module is absent from the snapshot, its operations are the spec
§4.2 push/pop operations used by `exec/instr.rs`, `exec/table.rs` and
`exec/memory.rs`). -/
structure NewStack : Type where
  values : List Value
  labels : List NewLabel
  frames : List NewFrame
deriving DecidableEq

def NewStack.push_value (s : NewStack) (v : Value) : NewStack :=
  { s with values := v :: s.values }

def NewStack.pop_value : NewStack → Option (Value × NewStack)
  | ⟨[], _, _⟩ => none
  | ⟨v :: rest, ls, fs⟩ => some (v, ⟨rest, ls, fs⟩)

def NewStack.popI32 : NewStack → Option (Int × NewStack)
  | ⟨Value.I32 v :: rest, ls, fs⟩ => some (v, ⟨rest, ls, fs⟩)
  | _ => none

/-- `pop_value::<Ref>()`: any non-ref tag hits `unreachable!`. -/
def NewStack.popRef : NewStack → Option (Ref × NewStack)
  | ⟨Value.ref r :: rest, ls, fs⟩ => some (r, ⟨rest, ls, fs⟩)
  | _ => none

/-- Modelled from the spec: the newer `Instance` (spec §3: per-module
binding table; the newer `exec/runtime.rs` defining it is absent from
the snapshot, the fields are those read by `exec/instr.rs`,
`exec/table.rs` and `exec/memory.rs`). -/
structure NewInstance : Type where
  funcaddrs : List Addr
  globaladdrs : List Addr
  tableaddrs : List Addr
  elemaddrs : List Addr
  dataaddrs : List Addr
  memaddr : Option Addr
  types : List FuncType
  start : Option Nat
  exports : List Export
deriving DecidableEq

/-! ## Table operations (`exec/table.rs`) -/

/-- `exec/table.rs` `table_get` (lines 13-27). NOTE the source guard:
`if i < tab.elem.len() { return Err(Trap::TableOutOfRange); }` — the
bounds check is as written in the source (an in-range index returns the
trap; an out-of-range index reaches `tab.elem[i]`, a Rust panic). -/
def table_get (x : Nat) (inst : NewInstance) (store : NewStore)
    (stack : NewStack) : Res Trap (NewStore × NewStack) :=
  match inst.tableaddrs.get? x with
  | none => .panic
  | some a =>
    match store.tables.idx? a with
    | none => .panic
    | some tab =>
      match stack.popI32 with
      | none => .panic
      | some (iv, s1) =>
        let i := usizeOfI32 iv
        if i < tab.elem.length then .err .TableOutOfRange
        else
          match tab.elem.get? i with
          | none => .panic
          | some r => .ok (store, s1.push_value (.ref r))

/-- `exec/table.rs` `table_set` (lines 29-44): pops the value, then the
index; the same inverted guard as `table_get`, then `tab.elem[i] = val`
(a panic whenever `i` is out of range — which in this function is every
index that got past the guard). -/
def table_set (x : Nat) (inst : NewInstance) (store : NewStore)
    (stack : NewStack) : Res Trap (NewStore × NewStack) :=
  match inst.tableaddrs.get? x with
  | none => .panic
  | some a =>
    match store.tables.idx? a with
    | none => .panic
    | some tab =>
      match stack.popRef with
      | none => .panic
      | some (val, s1) =>
        match s1.popI32 with
        | none => .panic
        | some (iv, s2) =>
          let i := usizeOfI32 iv
          if i < tab.elem.length then .err .TableOutOfRange
          else
            if i < tab.elem.length then
              .ok (store.setTable a { tab with elem := tab.elem.set i val }, s2)
            else .panic

/-- `exec/table.rs` `table_grow` (lines 46-68): pops `n` then the init
ref; `n as u64` sign-extends, and the `u64` addition
`n as u64 + tab.elem.len() as u64` wraps modulo `2^64` (a debug-build
panic on overflow); pushes the old size on success, `-1` otherwise. -/
def table_grow (x : Nat) (inst : NewInstance) (store : NewStore)
    (stack : NewStack) : Res Trap (NewStore × NewStack) :=
  match inst.tableaddrs.get? x with
  | none => .panic
  | some a =>
    match store.tables.idx? a with
    | none => .panic
    | some tab =>
      let sz : Int := wrap32 (Int.ofNat tab.elem.length)
      match stack.popI32 with
      | none => .panic
      | some (nv, s1) =>
        match s1.popRef with
        | none => .panic
        | some (init, s2) =>
          let len : Nat := (u64OfI32 nv + tab.elem.length) % 2 ^ 64
          if len > 2 ^ 32 - 1 then
            .ok (store, s2.push_value (.I32 (-1)))
          else
            let limits2 := tab.tabletype.limits.set_min (len % 2 ^ 32)
            if ¬ limits2.valid then
              .ok (store, s2.push_value (.I32 (-1)))
            else
              let count := limits2.min - tab.tabletype.limits.min
              .ok (store.setTable a
                    { tabletype := { tab.tabletype with limits := limits2 },
                      elem := tab.elem ++ List.replicate count init },
                  s2.push_value (.I32 sz))

/-! ## Memory operations (`exec/memory.rs`) -/

/-- The little-endian byte list of an `i32`
(`i32::to_le_bytes` on the 32-bit representation). -/
def le_bytes_i32 (v : Int) : List Nat :=
  let u := u32OfI32 v
  [u % 256, u / 256 % 256, u / 65536 % 256, u / 16777216 % 256]

/-- `exec/value.rs` `write_bytes`: byte-by-byte `buf[addr + i] = b`,
panicking on the first out-of-range index. -/
def write_bytes (data : List Nat) (addr : Nat) : List Nat → Option (List Nat)
  | [] => some data
  | b :: rest =>
    if addr < data.length then write_bytes (data.set addr b) (addr + 1) rest
    else none

/-- The fill loop of `memory_fill`:
`for i in 0..n { LittleEndian::write(&mut mem.data, d + i, val) }` —
`val` is an `i32`, so each iteration writes FOUR little-endian bytes at
`d + i`. -/
def mem_fill_loop (d : Nat) (val : Int) :
    Nat → Nat → List Nat → Option (List Nat)
  | _, 0, data => some data
  | i, k + 1, data =>
    match write_bytes data (d + i) (le_bytes_i32 val) with
    | none => none
    | some data2 => mem_fill_loop d val (i + 1) k data2

/-- `exec/memory.rs` `memory_fill` (lines 119-135): pops `n`, `val`,
`d` in that order; the `d + n > mem.data.len()` bound check precedes
the `n == 0` early return; the write loop stores the full `i32`
value. -/
def memory_fill (inst : NewInstance) (store : NewStore) (stack : NewStack) :
    Res Trap (NewStore × NewStack) :=
  match inst.memaddr with
  | none => .panic
  | some ma =>
    match store.mems.idx? ma with
    | none => .panic
    | some mem =>
      match stack.popI32 with
      | none => .panic
      | some (nv, s1) =>
        match s1.popI32 with
        | none => .panic
        | some (val, s2) =>
          match s2.popI32 with
          | none => .panic
          | some (dv, s3) =>
            let n := usizeOfI32 nv
            let d := usizeOfI32 dv
            if d + n > mem.data.length then .err .MemoryOutOfBounds
            else if n = 0 then .ok (store, s3)
            else
              match mem_fill_loop d val 0 n mem.data with
              | none => .panic
              | some data2 =>
                .ok (store.setMem ma { mem with data := data2 }, s3)

/-- `exec/memory.rs` `memory_grow` (lines 96-117): pops `n`
(`as u32`); the `u32` additions and the `n * PAGE_SIZE as u32`
multiplication wrap modulo `2^32` (debug builds panic on overflow);
pushes the old page count on success, `-1` otherwise. -/
def memory_grow (inst : NewInstance) (store : NewStore) (stack : NewStack) :
    Res Trap (NewStore × NewStack) :=
  match inst.memaddr with
  | none => .panic
  | some a =>
    match store.mems.idx? a with
    | none => .panic
    | some mem =>
      let sz := mem.limits.min
      match stack.popI32 with
      | none => .panic
      | some (nv, s1) =>
        let n := u32OfI32 nv
        let len := (sz + n) % 2 ^ 32
        if len > 65536 then
          .ok (store, s1.push_value (.I32 (-1)))
        else
          let limits2 := mem.limits.set_min len
          if ¬ limits2.valid then
            .ok (store, s1.push_value (.I32 (-1)))
          else
            let count := n * PAGE_SIZE % 2 ^ 32
            .ok (store.setMem a
                  { limits := limits2,
                    data := mem.data ++ List.replicate count 0 },
                s1.push_value (.I32 (wrap32 (Int.ofNat sz))))

/-- The `MemInst` built by `Store::allocate_mem` (`exec/store.rs` lines
134-140): `min` pages of zero bytes. -/
def alloc_mem_inst (limits : Limits) : MemInst :=
  ⟨limits, List.replicate (limits.min * PAGE_SIZE) 0⟩

/-- `Store::allocate_mem`. -/
def allocate_mem (store : NewStore) (limits : Limits) : NewStore × Addr :=
  let (mems2, a) := store.mems.push (alloc_mem_inst limits)
  ({ store with mems := mems2 }, a)

/-- Spec §3 / §8: a linear memory's byte length is exactly
`pages × 65536`, with `pages` the current minimum of its limits. -/
def memInvariant (m : MemInst) : Prop :=
  m.data.length = m.limits.min * PAGE_SIZE

/-! ## Store instructions (`exec/memory.rs` `impl_store!` instances)
and the remaining bulk memory operations (`memory_copy`,
`memory_init`). -/

/-- The little-endian byte list of the low `width` bytes of `u`
(`to_le_bytes` of the unsigned `width`-byte representation). -/
def le_bytes_n (width u : Nat) : List Nat :=
  (List.range width).map (fun k => u / 256 ^ k % 256)

/-- Interpret an `i64` as Rust `u64` (the `as u64` cast). -/
def u64OfI64 (x : Int) : Nat := (x % (2 ^ 64 : Int)).toNat

def NewStack.popI64 : NewStack → Option (Int × NewStack)
  | ⟨Value.I64 v :: rest, ls, fs⟩ => some (v, ⟨rest, ls, fs⟩)
  | _ => none

def NewStack.popF32 : NewStack → Option (Nat × NewStack)
  | ⟨Value.F32 bits :: rest, ls, fs⟩ => some (bits, ⟨rest, ls, fs⟩)
  | _ => none

def NewStack.popF64 : NewStack → Option (Nat × NewStack)
  | ⟨Value.F64 bits :: rest, ls, fs⟩ => some (bits, ⟨rest, ls, fs⟩)
  | _ => none

/-- The tail shared by every `impl_store!` instance after the value `c`
has been popped: pop the i32 address `i`, compute
`ea = i + memarg.offset` (the source's `checked_add`s return
`MemoryOutOfBounds` on `usize` overflow; over `Nat` the sums cannot
overflow and any such huge `ea` fails the same `> len` comparison),
trap when `ea + SIZE > mem.data.len()`, and write the value's
little-endian bytes byte by byte. -/
def store_finish (offset a size : Nat) (mem : MemInst) (store : NewStore)
    (bytes : List Nat) (s1 : NewStack) : Res Trap (NewStore × NewStack) :=
  match s1.popI32 with
  | none => .panic
  | some (iv, s2) =>
    let ea := usizeOfI32 iv + offset
    if ea + size > mem.data.length then .err .MemoryOutOfBounds
    else
      match write_bytes mem.data ea bytes with
      | none => .panic
      | some d2 => .ok (store.setMem a { mem with data := d2 }, s2)

/-- `impl_store!(i32_store, i32, i32)`: pops the `i32` value, then the
address; writes the 4 little-endian bytes of `c`. -/
def i32_store (offset : Nat) (inst : NewInstance) (store : NewStore)
    (stack : NewStack) : Res Trap (NewStore × NewStack) :=
  match inst.memaddr with
  | none => .panic
  | some a =>
    match store.mems.idx? a with
    | none => .panic
    | some mem =>
      match stack.popI32 with
      | none => .panic
      | some (c, s1) => store_finish offset a 4 mem store (le_bytes_i32 c) s1

/-- `impl_store!(i64_store, i64, i64)`. -/
def i64_store (offset : Nat) (inst : NewInstance) (store : NewStore)
    (stack : NewStack) : Res Trap (NewStore × NewStack) :=
  match inst.memaddr with
  | none => .panic
  | some a =>
    match store.mems.idx? a with
    | none => .panic
    | some mem =>
      match stack.popI64 with
      | none => .panic
      | some (c, s1) => store_finish offset a 8 mem store (le_bytes_n 8 (u64OfI64 c)) s1

/-- `impl_store!(f32_store, f32, f32)`: the stored bytes are the raw
IEEE bit pattern. -/
def f32_store (offset : Nat) (inst : NewInstance) (store : NewStore)
    (stack : NewStack) : Res Trap (NewStore × NewStack) :=
  match inst.memaddr with
  | none => .panic
  | some a =>
    match store.mems.idx? a with
    | none => .panic
    | some mem =>
      match stack.popF32 with
      | none => .panic
      | some (bits, s1) => store_finish offset a 4 mem store (le_bytes_n 4 bits) s1

/-- `impl_store!(f64_store, f64, f64)`. -/
def f64_store (offset : Nat) (inst : NewInstance) (store : NewStore)
    (stack : NewStack) : Res Trap (NewStore × NewStack) :=
  match inst.memaddr with
  | none => .panic
  | some a =>
    match store.mems.idx? a with
    | none => .panic
    | some mem =>
      match stack.popF64 with
      | none => .panic
      | some (bits, s1) => store_finish offset a 8 mem store (le_bytes_n 8 bits) s1

/-- `impl_store!(i32_store_8, i32, u8)`: writes the low byte of
`c as u8`. -/
def i32_store_8 (offset : Nat) (inst : NewInstance) (store : NewStore)
    (stack : NewStack) : Res Trap (NewStore × NewStack) :=
  match inst.memaddr with
  | none => .panic
  | some a =>
    match store.mems.idx? a with
    | none => .panic
    | some mem =>
      match stack.popI32 with
      | none => .panic
      | some (c, s1) => store_finish offset a 1 mem store (le_bytes_n 1 (u32OfI32 c)) s1

/-- `impl_store!(i32_store_16, i32, u16)`. -/
def i32_store_16 (offset : Nat) (inst : NewInstance) (store : NewStore)
    (stack : NewStack) : Res Trap (NewStore × NewStack) :=
  match inst.memaddr with
  | none => .panic
  | some a =>
    match store.mems.idx? a with
    | none => .panic
    | some mem =>
      match stack.popI32 with
      | none => .panic
      | some (c, s1) => store_finish offset a 2 mem store (le_bytes_n 2 (u32OfI32 c)) s1

/-- `impl_store!(i64_store_8, i64, u8)`. -/
def i64_store_8 (offset : Nat) (inst : NewInstance) (store : NewStore)
    (stack : NewStack) : Res Trap (NewStore × NewStack) :=
  match inst.memaddr with
  | none => .panic
  | some a =>
    match store.mems.idx? a with
    | none => .panic
    | some mem =>
      match stack.popI64 with
      | none => .panic
      | some (c, s1) => store_finish offset a 1 mem store (le_bytes_n 1 (u64OfI64 c)) s1

/-- `impl_store!(i64_store_16, i64, u16)`. -/
def i64_store_16 (offset : Nat) (inst : NewInstance) (store : NewStore)
    (stack : NewStack) : Res Trap (NewStore × NewStack) :=
  match inst.memaddr with
  | none => .panic
  | some a =>
    match store.mems.idx? a with
    | none => .panic
    | some mem =>
      match stack.popI64 with
      | none => .panic
      | some (c, s1) => store_finish offset a 2 mem store (le_bytes_n 2 (u64OfI64 c)) s1

/-- `impl_store!(i64_store_32, i64, u32)`. -/
def i64_store_32 (offset : Nat) (inst : NewInstance) (store : NewStore)
    (stack : NewStack) : Res Trap (NewStore × NewStack) :=
  match inst.memaddr with
  | none => .panic
  | some a =>
    match store.mems.idx? a with
    | none => .panic
    | some mem =>
      match stack.popI64 with
      | none => .panic
      | some (c, s1) => store_finish offset a 4 mem store (le_bytes_n 4 (u64OfI64 c)) s1

/-- The copy loop of `memory_copy`: both source branches perform the
same sequence of writes — the forward branch writes `d + i ← s + i`
for `i = 0, 1, …, n-1`, and the reverse branch writes
`d + n-1-i ← s + n-1-i` as `i` descends from `n-1` to `0`, i.e. the
identical ascending positions in the identical order — so one loop
embeds both. Reads (`data[s+i]`) and writes (`data[d+i]`) panic when
out of range. -/
def mem_copy_loop (dN sN : Nat) : Nat → Nat → List Nat → Option (List Nat)
  | _, 0, data => some data
  | i, k + 1, data =>
    match data.get? (sN + i) with
    | none => none
    | some b =>
      if dN + i < data.length then
        mem_copy_loop dN sN (i + 1) k (data.set (dN + i) b)
      else none

/-- `exec/memory.rs` `memory_copy` (lines 137-160): pops `n`, `s`, `d`;
traps when either range exceeds the memory; `n = 0` is a no-op after
the check. -/
def memory_copy (inst : NewInstance) (store : NewStore) (stack : NewStack) :
    Res Trap (NewStore × NewStack) :=
  match inst.memaddr with
  | none => .panic
  | some ma =>
    match store.mems.idx? ma with
    | none => .panic
    | some mem =>
      match stack.popI32 with
      | none => .panic
      | some (nv, s1) =>
        match s1.popI32 with
        | none => .panic
        | some (sv, s2) =>
          match s2.popI32 with
          | none => .panic
          | some (dv, s3) =>
            let n := usizeOfI32 nv
            let sN := usizeOfI32 sv
            let d := usizeOfI32 dv
            if sN + n > mem.data.length ∨ d + n > mem.data.length then
              .err .MemoryOutOfBounds
            else if n = 0 then .ok (store, s3)
            else
              match mem_copy_loop d sN 0 n mem.data with
              | none => .panic
              | some d2 => .ok (store.setMem ma { mem with data := d2 }, s3)

/-- The init loop of `memory_init`:
`mem.data[d + i] = data.data[s + i]` for `i = 0, …, n-1`; reads come
from the passive data segment `src`. -/
def mem_init_loop (dN sN : Nat) (src : List Nat) :
    Nat → Nat → List Nat → Option (List Nat)
  | _, 0, data => some data
  | i, k + 1, data =>
    match src.get? (sN + i) with
    | none => none
    | some b =>
      if dN + i < data.length then
        mem_init_loop dN sN src (i + 1) k (data.set (dN + i) b)
      else none

/-- `exec/memory.rs` `memory_init` (lines 162-185): looks up the data
segment at `instance.dataaddrs[x]` (a panic when absent), pops `n`,
`s`, `d`, traps when the source range exceeds the segment or the
destination range exceeds the memory, and copies. -/
def memory_init (x : Nat) (inst : NewInstance) (store : NewStore)
    (stack : NewStack) : Res Trap (NewStore × NewStack) :=
  match inst.memaddr with
  | none => .panic
  | some ma =>
    match store.mems.idx? ma with
    | none => .panic
    | some mem =>
      match inst.dataaddrs.get? x with
      | none => .panic
      | some da =>
        match store.datas.idx? da with
        | none => .panic
        | some dataSeg =>
          match stack.popI32 with
          | none => .panic
          | some (nv, s1) =>
            match s1.popI32 with
            | none => .panic
            | some (sv, s2) =>
              match s2.popI32 with
              | none => .panic
              | some (dv, s3) =>
                let n := usizeOfI32 nv
                let sN := usizeOfI32 sv
                let d := usizeOfI32 dv
                if sN + n > dataSeg.data.length ∨ d + n > mem.data.length then
                  .err .MemoryOutOfBounds
                else if n = 0 then .ok (store, s3)
                else
                  match mem_init_loop d sN dataSeg.data 0 n mem.data with
                  | none => .panic
                  | some d2 => .ok (store.setMem ma { mem with data := d2 }, s3)

/-! ## Numeric closures of the newer stepper (`exec/instr.rs` lines
278-322): the integer div/rem operations handed to `binop_trap`. -/

/-- `I32DivU`: `(a as u32).checked_div(b as u32).ok_or(DivByZero)`
then the result cast back to `i32`. -/
def i32_div_u (a b : Int) : Except Trap Int :=
  if u32OfI32 b = 0 then .error .DivByZero
  else .ok (wrap32 (Int.ofNat (u32OfI32 a / u32OfI32 b)))

def i64_div_u (a b : Int) : Except Trap Int :=
  if (b % (2 ^ 64 : Int)).toNat = 0 then .error .DivByZero
  else .ok (wrap64 (Int.ofNat ((a % (2 ^ 64 : Int)).toNat / (b % (2 ^ 64 : Int)).toNat)))

/-- `I32DivS`: `a.checked_div(b).ok_or(DivByZero)` — `checked_div`
yields `None` both for a zero divisor and for `i32::MIN / -1`, so both
trap `DivByZero`. -/
def i32_div_s (a b : Int) : Except Trap Int :=
  if b = 0 ∨ (a = -(2 ^ 31) ∧ b = -1) then .error .DivByZero
  else .ok (a.tdiv b)

def i64_div_s (a b : Int) : Except Trap Int :=
  if b = 0 ∨ (a = -(2 ^ 63) ∧ b = -1) then .error .DivByZero
  else .ok (a.tdiv b)

/-- `I32RemU`: explicit zero check, then `u32` `wrapping_rem`. -/
def i32_rem_u (a b : Int) : Except Trap Int :=
  if b = 0 then .error .DivByZero
  else .ok (wrap32 (Int.ofNat (u32OfI32 a % u32OfI32 b)))

def i64_rem_u (a b : Int) : Except Trap Int :=
  if b = 0 then .error .DivByZero
  else .ok (wrap64 (Int.ofNat ((a % (2 ^ 64 : Int)).toNat % (b % (2 ^ 64 : Int)).toNat)))

/-- `I32RemS`: explicit zero check, then `wrapping_rem`
(`i32::MIN % -1` wraps to 0, which `Int.tmod` already yields). -/
def i32_rem_s (a b : Int) : Except Trap Int :=
  if b = 0 then .error .DivByZero
  else .ok (a.tmod b)

def i64_rem_s (a b : Int) : Except Trap Int :=
  if b = 0 then .error .DivByZero
  else .ok (a.tmod b)

/-- The label index selected by the `BrTable` arm of the newer stepper
(`exec/instr.rs` lines 93-112): `indexs[i]` when `i < indexs.len()`,
else `default` (the subsequent out-of-label-range check only decides
between `jump` and frame unwinding, not which index is used). -/
def br_table_target (indexs : List Nat) (default : Nat) (i : Nat) :
    Option Nat :=
  if i < indexs.length then indexs.get? i else some default

/-! ## `attach` (`exec/instr.rs` lines 589-642) -/

/-- The newer `Env::call` contract (`exec/env.rs`): name, parameter
values in natural order, and an optional handle on the module's linear
memory. -/
def NewEnv : Type := String → List Value → Option MemInst → Except EnvError (List Value)

/-- Pop `k` values one at a time from the newer stack, in pop order
(top first); a panic when the stack runs out. -/
def popNN : Nat → NewStack → Option (List Value × NewStack)
  | 0, s => some ([], s)
  | k + 1, s =>
    match s.pop_value with
    | none => none
    | some (v, s1) =>
      match popNN k s1 with
      | none => none
      | some (vs, s2) => some (v :: vs, s2)

/-- `exec/instr.rs` `attach`: for a `HostFunc`, pop the declared
parameter count, REVERSE the popped list into natural order, call the
host and push its results; for an `InnerFunc`, pop and reverse the
parameters, append zero-initialised declared locals (`todo!()` — a
panic — for reference locals), push the new frame and return the
function's start PC. -/
def attach (env : NewEnv) (func : FuncInst) (stack : NewStack)
    (memory : Option MemInst) (pc : Nat) :
    Res Trap (Option Nat × NewStack) :=
  match func with
  | .HostFunc functype name =>
    match popNN functype.params.length stack with
    | none => .panic
    | some (popped, s1) =>
      let locals := popped.reverse
      match env name locals memory with
      | .error e => .err (.Env e)
      | .ok results =>
        .ok (none, { s1 with values := results.reverse ++ s1.values })
  | .InnerFunc instance_addr start functype locals_decl =>
    match popNN functype.params.length stack with
    | none => .panic
    | some (popped, s1) =>
      match zeroLocals locals_decl with
      | none => .panic
      | some zeros =>
        let new_frame : NewFrame :=
          ⟨functype.results.length, instance_addr, popped.reverse ++ zeros,
            s1.values.length, pc + 1⟩
        .ok (some start, { s1 with frames := new_frame :: s1.frames })

/-! ## Concrete instances used by the theorems -/

/-- `(func (export "main") (result i32) i32.const 1 i32.const 2 return)`
— a validated module: `return` is stack-polymorphic, so pushing an
extra value below the result and returning is well-typed. -/
def mC1 : Module :=
  { types := [⟨[], [.I32]⟩],
    funcs := [⟨0, [], [.I32Const 1, .I32Const 2, .Return]⟩],
    imports := [], globals := [],
    exports := [⟨"main", .Func 0⟩], start := none }

/-- `(func (export "main") (param i32) (result i32) local.get 0)`. -/
def mC10 : Module :=
  { types := [⟨[.I32], [.I32]⟩],
    funcs := [⟨0, [], [.LocalGet 0, .Return]⟩],
    imports := [], globals := [],
    exports := [⟨"main", .Func 0⟩], start := none }

/-- `(func (export "main") (result i32) (local i32) local.get 0)` —
the body reads the function's declared (zero-initialised) local. -/
def mC10b : Module :=
  { types := [⟨[], [.I32]⟩],
    funcs := [⟨0, [.I32], [.LocalGet 0, .Return]⟩],
    imports := [], globals := [],
    exports := [⟨"main", .Func 0⟩], start := none }

/-- An empty instance and a root frame for single-step runs. -/
def inst0 : Instance := ⟨[], [], [], none, []⟩

def f0 : OldFrame := ⟨0, 0, [], 0⟩

def emptyOldStore : OldStore := ⟨[], []⟩

/-- A host that answers with the FIRST parameter it received —
an observer for the parameter order handed over at a host call. -/
def env9old : OldEnv := fun _ frame => .ok [frame.locals.headD (.I32 0)]

def env9new : NewEnv := fun _ params _ => .ok [params.headD (.I32 0)]

/-- A host function type with two i32 parameters. -/
def ft9 : FuncType := ⟨[.I32, .I32], [.I32]⟩

/-- A one-table instance/store: table 0 holds a single null ref. -/
def instT : NewInstance := ⟨[], [], [0], [], [], none, [], none, []⟩

def storeT : NewStore :=
  { NewStore.empty with
    tables := OptVec.ofList [⟨⟨.FuncRef, .Min 1⟩, [.null]⟩] }

/-- A one-memory instance (memory at store address 0). -/
def instM : NewInstance := ⟨[], [], [], [], [], some 0, [], none, []⟩

/-- An 8-byte memory. -/
def storeM8 : NewStore :=
  { NewStore.empty with
    mems := OptVec.ofList [⟨.Min 1, List.replicate 8 0⟩] }

/-- An empty (0-page) memory. -/
def storeM0 : NewStore :=
  { NewStore.empty with mems := OptVec.ofList [⟨.Min 0, []⟩] }

/-- A 1-page memory. -/
def storeM1 : NewStore :=
  { NewStore.empty with
    mems := OptVec.ofList [⟨.Min 1, List.replicate 65536 0⟩] }

/-- A two-element table with limits 2..10. -/
def storeT2 : NewStore :=
  { NewStore.empty with
    tables := OptVec.ofList [⟨⟨.FuncRef, .MinMax 2 10⟩, [.null, .null]⟩] }

/-! ## Supporting lemmas -/

theorem popNold_take_drop (k : Nat) (s : OldStack) (h : k ≤ s.values.length) :
    popNold k s = some (s.values.take k, { s with values := s.values.drop k }) := by
  induction k generalizing s with
  | zero => simp [popNold]
  | succ k ih =>
    match s with
    | ⟨[], ls, fs⟩ => simp at h
    | ⟨v :: vs, ls, fs⟩ =>
      simp only [popNold, OldStack.pop_value]
      rw [ih ⟨vs, ls, fs⟩ (by simpa using Nat.le_of_succ_le_succ h)]
      simp [List.take, List.drop]

theorem Limits.min_set_min (l : Limits) (m : Nat) : (l.set_min m).min = m := by
  cases l <;> rfl

theorem OptVec.idx?_setIdx_self {α : Type} (v : OptVec α) (i : Nat) (x y : α)
    (h : v.idx? i = some y) : (v.setIdx i x).idx? i = some x := by
  unfold OptVec.idx? at h
  have hlen : i < v.inner.length := by
    cases hg : v.inner.get? i with
    | none => rw [hg] at h; simp at h
    | some o =>
      obtain ⟨hl, -⟩ := List.get?_eq_some.mp hg
      exact hl
  show ((v.inner.set i (some x)).get? i).bind id = some x
  rw [List.get?_set_eq_of_lt _ hlen]
  rfl

theorem write_bytes_length (bytes data : List Nat) (addr : Nat) (d2 : List Nat)
    (h : write_bytes data addr bytes = some d2) : d2.length = data.length := by
  induction bytes generalizing data addr with
  | nil =>
    unfold write_bytes at h
    cases h
    rfl
  | cons b rest ih =>
    unfold write_bytes at h
    split at h
    · rw [ih _ _ h, List.length_set]
    · simp at h

theorem mem_fill_loop_length (d : Nat) (val : Int) (k i : Nat)
    (data d2 : List Nat) (h : mem_fill_loop d val i k data = some d2) :
    d2.length = data.length := by
  induction k generalizing i data with
  | zero =>
    unfold mem_fill_loop at h
    cases h
    rfl
  | succ k ih =>
    unfold mem_fill_loop at h
    cases hw : write_bytes data (d + i) (le_bytes_i32 val) with
    | none => rw [hw] at h; simp at h
    | some dmid =>
      rw [hw] at h
      dsimp only at h
      rw [ih _ _ h, write_bytes_length _ _ _ _ hw]

theorem mem_copy_loop_length (dN sN : Nat) (k i : Nat) (data d2 : List Nat)
    (h : mem_copy_loop dN sN i k data = some d2) : d2.length = data.length := by
  induction k generalizing i data with
  | zero =>
    unfold mem_copy_loop at h
    cases h
    rfl
  | succ k ih =>
    unfold mem_copy_loop at h
    cases hg : data.get? (sN + i) with
    | none => rw [hg] at h; simp at h
    | some b =>
      rw [hg] at h
      dsimp only at h
      split at h
      · rw [ih _ _ h, List.length_set]
      · simp at h

theorem mem_init_loop_length (dN sN : Nat) (src : List Nat) (k i : Nat)
    (data d2 : List Nat) (h : mem_init_loop dN sN src i k data = some d2) :
    d2.length = data.length := by
  induction k generalizing i data with
  | zero =>
    unfold mem_init_loop at h
    cases h
    rfl
  | succ k ih =>
    unfold mem_init_loop at h
    cases hg : src.get? (sN + i) with
    | none => rw [hg] at h; simp at h
    | some b =>
      rw [hg] at h
      dsimp only at h
      split at h
      · rw [ih _ _ h, List.length_set]
      · simp at h

theorem setMem_invariant (store : NewStore) (a : Nat) (mem : MemInst)
    (d2 : List Nat) (hidx : store.mems.idx? a = some mem)
    (hinv : memInvariant mem) (hlen : d2.length = mem.data.length) :
    ∀ mem2, (store.setMem a { mem with data := d2 }).mems.idx? a = some mem2 →
      memInvariant mem2 := by
  intro mem2 hmem2
  have hset := OptVec.idx?_setIdx_self store.mems a ({ mem with data := d2 }) mem hidx
  have hmem2b : (store.mems.setIdx a { mem with data := d2 }).idx? a = some mem2 :=
    hmem2
  rw [hset] at hmem2b
  cases hmem2b
  unfold memInvariant at hinv ⊢
  dsimp only
  rw [hlen, hinv]

theorem store_finish_preserves (offset a size : Nat) (bytes : List Nat)
    (mem : MemInst) (store : NewStore) (s1 : NewStack) (s2 : NewStore)
    (st2 : NewStack) (hidx : store.mems.idx? a = some mem)
    (hinv : memInvariant mem)
    (hrun : store_finish offset a size mem store bytes s1 = .ok (s2, st2)) :
    ∀ mem2, s2.mems.idx? a = some mem2 → memInvariant mem2 := by
  unfold store_finish at hrun
  cases hp : s1.popI32 with
  | none => rw [hp] at hrun; simp at hrun
  | some p =>
    rw [hp] at hrun
    obtain ⟨iv, s2s⟩ := p
    dsimp only at hrun
    split at hrun
    · simp at hrun
    · cases hw : write_bytes mem.data (usizeOfI32 iv + offset) bytes with
      | none => rw [hw] at hrun; simp at hrun
      | some d2 =>
        rw [hw] at hrun
        obtain ⟨hs, -⟩ := Prod.mk.injEq .. ▸ (Res.ok.injEq .. ▸ hrun)
        subst hs
        exact setMem_invariant store a mem d2 hidx hinv
          (write_bytes_length _ _ _ _ hw)

/-! ## Claim theorems -/

/-- Claim C1: invoking the validated export
`(func (result i32) i32.const 1 i32.const 2 return)` returns TWO
values, although the declared result arity is 1 — the snapshot's
`Return` pops the `n` results and pushes them straight back, and
`get_returns` drains the whole value stack, so values below the
results are never discarded. -/
theorem c1_invoke_returns_extra_value :
    invokeModule mC1 "main" [] 16 = some (.ok [Value.I32 1, Value.I32 2]) ∧
    mC1.types.get? 0 = some ⟨[], [ValType.I32]⟩ ∧
    [Value.I32 1, Value.I32 2].length ≠ [ValType.I32].length :=
  ⟨rfl, rfl, by decide⟩

/-- Claim C2: the newer stepper selects `indexs[i]` for `i < len` and
`default` otherwise; the older stepper guards with `i <= indexs.len()`
and at `i = len` indexes `indexs[len]` — a Rust panic — instead of
branching via `default`. -/
theorem c2_br_table_boundary :
    br_table_target [7] 9 0 = some 7 ∧
    br_table_target [7] 9 1 = some 9 ∧
    br_table_target [7] 9 2 = some 9 ∧
    oldStep debugEnvOld [inst0] [.BrTable [0] 9] 0 emptyOldStore
      ⟨[Value.I32 1], [], [f0]⟩ = .panic :=
  ⟨rfl, rfl, rfl, rfl⟩

/-- Claim C3: `table_get`/`table_set` trap `TableOutOfRange` exactly on
IN-range indices (the bounds check reads `i < len` where the standard
requires `i >= len`) and panic on out-of-range indices. -/
theorem c3_table_get_set_inverted_bounds :
    table_get 0 instT storeT ⟨[Value.I32 0], [], []⟩ = .err .TableOutOfRange ∧
    table_get 0 instT storeT ⟨[Value.I32 1], [], []⟩ = .panic ∧
    table_set 0 instT storeT ⟨[Value.ref .null, Value.I32 0], [], []⟩ =
      .err .TableOutOfRange ∧
    table_set 0 instT storeT ⟨[Value.ref .null, Value.I32 1], [], []⟩ = .panic :=
  ⟨rfl, rfl, rfl, rfl⟩

/-- Claim C4: `memory_fill` checks `d + n > len` before the `n = 0`
shortcut (third conjunct, as the claim states), but each loop iteration
writes the whole little-endian `i32`: filling ONE byte at `d = 0` with
`0x01020304` on an 8-byte memory yields bytes `04 03 02 01` — mutating
bytes 1..3 outside the fill range — and a fill ending within the last
3 bytes of memory panics although `d + n ≤ len`. -/
theorem c4_memory_fill_writes_whole_i32 :
    memory_fill instM storeM8 ⟨[Value.I32 1, Value.I32 16909060, Value.I32 0], [], []⟩ =
      .ok ({ NewStore.empty with
          mems := OptVec.ofList [⟨.Min 1, [4, 3, 2, 1, 0, 0, 0, 0]⟩] },
        ⟨[], [], []⟩) ∧
    memory_fill instM storeM8 ⟨[Value.I32 1, Value.I32 16909060, Value.I32 5], [], []⟩ =
      .panic ∧
    memory_fill instM storeM0 ⟨[Value.I32 0, Value.I32 77, Value.I32 1], [], []⟩ =
      .err .MemoryOutOfBounds := by
  refine ⟨?_, rfl, rfl⟩
  decide

/-- Claim C5: in the newer stepper every integer div/rem traps
`DivByZero` on a zero divisor, and signed division of `MIN` by `-1`
traps as well (`checked_div` returns `None` there too); the older
stepper computes `a / b` for `I32DivU`, which panics on a zero divisor
(and is signed division: `-2 / 2 = -1` instead of the unsigned
`2147483647`). -/
theorem c5_div_rem_zero_and_overflow :
    (∀ a : Int, i32_div_s a 0 = .error .DivByZero) ∧
    (∀ a : Int, i64_div_s a 0 = .error .DivByZero) ∧
    (∀ a : Int, i32_div_u a 0 = .error .DivByZero) ∧
    (∀ a : Int, i64_div_u a 0 = .error .DivByZero) ∧
    (∀ a : Int, i32_rem_s a 0 = .error .DivByZero) ∧
    (∀ a : Int, i64_rem_s a 0 = .error .DivByZero) ∧
    (∀ a : Int, i32_rem_u a 0 = .error .DivByZero) ∧
    (∀ a : Int, i64_rem_u a 0 = .error .DivByZero) ∧
    i32_div_s 1 0 = .error .DivByZero ∧
    i32_div_s (-(2 ^ 31)) (-1) = .error .DivByZero ∧
    i64_div_s (-(2 ^ 63)) (-1) = .error .DivByZero ∧
    oldStep debugEnvOld [inst0] [.I32DivU] 0 emptyOldStore
      ⟨[Value.I32 0, Value.I32 1], [], [f0]⟩ = .panic ∧
    oldStep debugEnvOld [inst0] [.I32DivU] 0 emptyOldStore
      ⟨[Value.I32 2, Value.I32 (-2)], [], [f0]⟩ =
      .ok (some 1, emptyOldStore, ⟨[Value.I32 (-1)], [], [f0]⟩) ∧
    i32_div_u (-2) 2 = .ok 2147483647 := by
  refine ⟨?_, ?_, ?_, ?_, ?_, ?_, ?_, ?_, rfl, rfl, rfl, rfl, rfl, rfl⟩
  · intro a; simp [i32_div_s]
  · intro a; simp [i64_div_s]
  · intro a; simp [i32_div_u, u32OfI32]
  · intro a; simp [i64_div_u]
  · intro a; simp [i32_rem_s]
  · intro a; simp [i64_rem_s]
  · intro a; simp [i32_rem_u]
  · intro a; simp [i64_rem_u]

/-- Claim C6 (counterexample): after `Loop` pushes its label, a `Br 0`
targeting that loop label still pops it — the label stack goes from one
label to none — where the claim expects 0 labels popped for a loop
target. -/
theorem c6_loop_label_is_popped :
    oldStep debugEnvOld [inst0] [.Loop .Empty, .Br 0] 0 emptyOldStore
      ⟨[], [], [f0]⟩ = .ok (some 1, emptyOldStore, ⟨[], [⟨0, 0, 0⟩], [f0]⟩) ∧
    oldStep debugEnvOld [inst0] [.Loop .Empty, .Br 0] 1 emptyOldStore
      ⟨[], [⟨0, 0, 0⟩], [f0]⟩ = .ok (some 0, emptyOldStore, ⟨[], [], [f0]⟩) :=
  ⟨rfl, rfl⟩

/-- Claim C6 (amended): `jump(l)` preserves exactly the top `n` values
of the target label, discards every other value above the label's
recorded `offset`, returns the label's continuation PC — and pops
`l + 1` labels in EVERY case: the snapshot's `jump` has no loop special
case (its `Label` has no `cont` flag); a loop's label is only
re-established when the `Loop` instruction itself re-executes at the
returned PC. -/
theorem c6_jump_unwinds (s : OldStack) (l : Nat) (label : OldLabel)
    (hl : s.labels.get? l = some label)
    (hn : label.offset + label.n ≤ s.values.length) :
    s.jump l = some (label.pc,
      ⟨s.values.take label.n ++ s.values.drop (s.values.length - label.offset),
        s.labels.drop (l + 1), s.frames⟩) := by
  unfold OldStack.jump
  rw [hl]
  dsimp only
  rw [popNold_take_drop label.n s (by omega)]
  dsimp only
  rw [if_pos (show label.offset ≤ (List.drop label.n s.values).length by
    rw [List.length_drop]; omega)]
  rw [popNold_take_drop ((List.drop label.n s.values).length - label.offset)
    ⟨List.drop label.n s.values, s.labels, s.frames⟩ (Nat.sub_le _ _)]
  dsimp only
  rw [List.drop_drop]
  have harith :
      label.n + ((List.drop label.n s.values).length - label.offset) =
        s.values.length - label.offset := by
    rw [List.length_drop]; omega
  rw [harith]

theorem c6_jump_unwinds_witness :
    OldStack.jump ⟨[Value.I32 5, Value.I32 6], [⟨1, 0, 42⟩], []⟩ 0 =
      some (42, ⟨[Value.I32 5], [], []⟩) := by
  have h := c6_jump_unwinds ⟨[Value.I32 5, Value.I32 6], [⟨1, 0, 42⟩], []⟩ 0
    ⟨1, 0, 42⟩ rfl (by decide)
  simpa using h

/-- Claim C7: with `n = -1` (u32 4294967295) the `u32` page addition
of `memory_grow` wraps to 0, so the grow "succeeds": it pushes the old
size 1 (not -1), records 0 pages and appends 4294901760 zero bytes; the
`u64` length addition of `table_grow` (after the sign-extending
`n as u64` cast) likewise wraps to 1, so it pushes the old size 2
(not -1) and lowers the recorded minimum from 2 to 1 — in both cases
the grown size violates the declared limits, yet no -1 is pushed and
the instance changes. -/
theorem c7_grow_overflow_not_minus_one :
    memory_grow instM storeM1 ⟨[Value.I32 (-1)], [], []⟩ =
      .ok ({ NewStore.empty with
          mems := OptVec.ofList
            [⟨.Min 0, List.replicate 65536 0 ++ List.replicate 4294901760 0⟩] },
        ⟨[Value.I32 1], [], []⟩) ∧
    table_grow 0 instT storeT2 ⟨[Value.I32 (-1), Value.ref .null], [], []⟩ =
      .ok ({ NewStore.empty with
          tables := OptVec.ofList
            [⟨⟨.FuncRef, .MinMax 1 10⟩, [.null, .null] ++ List.replicate 0 Ref.null⟩] },
        ⟨[Value.I32 2], [], []⟩) ∧
    (Value.I32 1 ≠ Value.I32 (-1)) ∧ (Value.I32 2 ≠ Value.I32 (-1)) :=
  ⟨rfl, rfl, by decide, by decide⟩

/-- Claim C8 (counterexample): growing a 1-page memory by `n = -1`
(u32 4294967295) wraps the page addition to 0 and leaves a memory whose
byte length is 2^32 while its recorded page count is 0 — the
`pages × 65536` invariant fails after this `memory_grow`. -/
theorem c8_overflow_breaks_invariant :
    memory_grow instM storeM1 ⟨[Value.I32 (-1)], [], []⟩ =
      .ok ({ NewStore.empty with
          mems := OptVec.ofList
            [⟨.Min 0, List.replicate 65536 0 ++ List.replicate 4294901760 0⟩] },
        ⟨[Value.I32 1], [], []⟩) ∧
    ¬ memInvariant
        ⟨.Min 0, List.replicate 65536 0 ++ List.replicate 4294901760 0⟩ := by
  constructor
  · exact rfl
  · intro h
    unfold memInvariant at h
    rw [List.length_append, List.length_replicate, List.length_replicate] at h
    rw [show (⟨Limits.Min 0, List.replicate 65536 0 ++ List.replicate 4294901760 0⟩ :
      MemInst).limits.min = 0 from rfl] at h
    rw [show PAGE_SIZE = 65536 from rfl] at h
    omega

/-- Claim C8 (amended): the invariant `data.len() = pages × 65536`
holds for every freshly allocated memory (`allocate_mem`); `memory_grow`
preserves it provided its `u32` page arithmetic does not overflow
(`pages + n < 2^32` and `n × 65536 < 2^32`); and every other
memory-mutating operation — the nine stores, `memory_fill`,
`memory_copy` and `memory_init` — preserves it unconditionally whenever
it completes, since they only write bytes in place and never change
`data.len()`. -/
theorem c8_memory_invariant_amended :
    (∀ limits : Limits, memInvariant (alloc_mem_inst limits)) ∧
    (∀ (inst : NewInstance) (a : Nat) (mem : MemInst) (store : NewStore)
        (nv : Int) (vs : List Value) (ls : List NewLabel) (fs : List NewFrame)
        (s2 : NewStore) (st2 : NewStack),
      inst.memaddr = some a →
      store.mems.idx? a = some mem →
      memInvariant mem →
      mem.limits.min + u32OfI32 nv < 2 ^ 32 →
      u32OfI32 nv * PAGE_SIZE < 2 ^ 32 →
      memory_grow inst store ⟨Value.I32 nv :: vs, ls, fs⟩ = .ok (s2, st2) →
      ∀ mem2, s2.mems.idx? a = some mem2 → memInvariant mem2) ∧
    (∀ (offset : Nat) (inst : NewInstance) (a : Nat) (mem : MemInst)
        (store : NewStore) (stack : NewStack) (s2 : NewStore) (st2 : NewStack),
      inst.memaddr = some a → store.mems.idx? a = some mem → memInvariant mem →
      i32_store offset inst store stack = .ok (s2, st2) →
      ∀ mem2, s2.mems.idx? a = some mem2 → memInvariant mem2) ∧
    (∀ (offset : Nat) (inst : NewInstance) (a : Nat) (mem : MemInst)
        (store : NewStore) (stack : NewStack) (s2 : NewStore) (st2 : NewStack),
      inst.memaddr = some a → store.mems.idx? a = some mem → memInvariant mem →
      i64_store offset inst store stack = .ok (s2, st2) →
      ∀ mem2, s2.mems.idx? a = some mem2 → memInvariant mem2) ∧
    (∀ (offset : Nat) (inst : NewInstance) (a : Nat) (mem : MemInst)
        (store : NewStore) (stack : NewStack) (s2 : NewStore) (st2 : NewStack),
      inst.memaddr = some a → store.mems.idx? a = some mem → memInvariant mem →
      f32_store offset inst store stack = .ok (s2, st2) →
      ∀ mem2, s2.mems.idx? a = some mem2 → memInvariant mem2) ∧
    (∀ (offset : Nat) (inst : NewInstance) (a : Nat) (mem : MemInst)
        (store : NewStore) (stack : NewStack) (s2 : NewStore) (st2 : NewStack),
      inst.memaddr = some a → store.mems.idx? a = some mem → memInvariant mem →
      f64_store offset inst store stack = .ok (s2, st2) →
      ∀ mem2, s2.mems.idx? a = some mem2 → memInvariant mem2) ∧
    (∀ (offset : Nat) (inst : NewInstance) (a : Nat) (mem : MemInst)
        (store : NewStore) (stack : NewStack) (s2 : NewStore) (st2 : NewStack),
      inst.memaddr = some a → store.mems.idx? a = some mem → memInvariant mem →
      i32_store_8 offset inst store stack = .ok (s2, st2) →
      ∀ mem2, s2.mems.idx? a = some mem2 → memInvariant mem2) ∧
    (∀ (offset : Nat) (inst : NewInstance) (a : Nat) (mem : MemInst)
        (store : NewStore) (stack : NewStack) (s2 : NewStore) (st2 : NewStack),
      inst.memaddr = some a → store.mems.idx? a = some mem → memInvariant mem →
      i32_store_16 offset inst store stack = .ok (s2, st2) →
      ∀ mem2, s2.mems.idx? a = some mem2 → memInvariant mem2) ∧
    (∀ (offset : Nat) (inst : NewInstance) (a : Nat) (mem : MemInst)
        (store : NewStore) (stack : NewStack) (s2 : NewStore) (st2 : NewStack),
      inst.memaddr = some a → store.mems.idx? a = some mem → memInvariant mem →
      i64_store_8 offset inst store stack = .ok (s2, st2) →
      ∀ mem2, s2.mems.idx? a = some mem2 → memInvariant mem2) ∧
    (∀ (offset : Nat) (inst : NewInstance) (a : Nat) (mem : MemInst)
        (store : NewStore) (stack : NewStack) (s2 : NewStore) (st2 : NewStack),
      inst.memaddr = some a → store.mems.idx? a = some mem → memInvariant mem →
      i64_store_16 offset inst store stack = .ok (s2, st2) →
      ∀ mem2, s2.mems.idx? a = some mem2 → memInvariant mem2) ∧
    (∀ (offset : Nat) (inst : NewInstance) (a : Nat) (mem : MemInst)
        (store : NewStore) (stack : NewStack) (s2 : NewStore) (st2 : NewStack),
      inst.memaddr = some a → store.mems.idx? a = some mem → memInvariant mem →
      i64_store_32 offset inst store stack = .ok (s2, st2) →
      ∀ mem2, s2.mems.idx? a = some mem2 → memInvariant mem2) ∧
    (∀ (inst : NewInstance) (a : Nat) (mem : MemInst) (store : NewStore)
        (stack : NewStack) (s2 : NewStore) (st2 : NewStack),
      inst.memaddr = some a → store.mems.idx? a = some mem → memInvariant mem →
      memory_fill inst store stack = .ok (s2, st2) →
      ∀ mem2, s2.mems.idx? a = some mem2 → memInvariant mem2) ∧
    (∀ (inst : NewInstance) (a : Nat) (mem : MemInst) (store : NewStore)
        (stack : NewStack) (s2 : NewStore) (st2 : NewStack),
      inst.memaddr = some a → store.mems.idx? a = some mem → memInvariant mem →
      memory_copy inst store stack = .ok (s2, st2) →
      ∀ mem2, s2.mems.idx? a = some mem2 → memInvariant mem2) ∧
    (∀ (x : Nat) (inst : NewInstance) (a : Nat) (mem : MemInst)
        (store : NewStore) (stack : NewStack) (s2 : NewStore) (st2 : NewStack),
      inst.memaddr = some a → store.mems.idx? a = some mem → memInvariant mem →
      memory_init x inst store stack = .ok (s2, st2) →
      ∀ mem2, s2.mems.idx? a = some mem2 → memInvariant mem2) := by
  refine ⟨?_, ?_, ?_, ?_, ?_, ?_, ?_, ?_, ?_, ?_, ?_, ?_, ?_, ?_⟩
  · intro limits
    simp [memInvariant, alloc_mem_inst]
  · intro inst a mem store nv vs ls fs s2 st2 hma hidx hinv hov1 hov2 hrun mem2 hmem2
    unfold memory_grow at hrun
    rw [hma] at hrun
    dsimp only at hrun
    rw [hidx] at hrun
    dsimp only [NewStack.popI32] at hrun
    by_cases h1 : (mem.limits.min + u32OfI32 nv) % 2 ^ 32 > 65536
    · rw [if_pos h1] at hrun
      obtain ⟨hs, -⟩ := Prod.mk.injEq .. ▸ (Res.ok.injEq .. ▸ hrun)
      subst hs
      rw [hidx] at hmem2
      cases hmem2
      exact hinv
    · rw [if_neg h1] at hrun
      by_cases h2 : (mem.limits.set_min ((mem.limits.min + u32OfI32 nv) % 2 ^ 32)).valid
      · rw [if_neg (by simpa using h2)] at hrun
        obtain ⟨hs, -⟩ := Prod.mk.injEq .. ▸ (Res.ok.injEq .. ▸ hrun)
        subst hs
        have hset := OptVec.idx?_setIdx_self store.mems a
          ⟨mem.limits.set_min ((mem.limits.min + u32OfI32 nv) % 2 ^ 32),
            mem.data ++ List.replicate (u32OfI32 nv * PAGE_SIZE % 2 ^ 32) 0⟩ mem hidx
        have hmem2b :
            (store.mems.setIdx a
              ⟨mem.limits.set_min ((mem.limits.min + u32OfI32 nv) % 2 ^ 32),
                mem.data ++ List.replicate (u32OfI32 nv * PAGE_SIZE % 2 ^ 32) 0⟩).idx? a =
              some mem2 := hmem2
        rw [hset] at hmem2b
        cases hmem2b
        unfold memInvariant at hinv ⊢
        rw [List.length_append, List.length_replicate, hinv,
          Limits.min_set_min, Nat.mod_eq_of_lt hov1, Nat.mod_eq_of_lt hov2,
          Nat.add_mul]
      · rw [if_pos (by simpa using h2)] at hrun
        obtain ⟨hs, -⟩ := Prod.mk.injEq .. ▸ (Res.ok.injEq .. ▸ hrun)
        subst hs
        rw [hidx] at hmem2
        cases hmem2
        exact hinv
  · intro offset inst a mem store stack s2 st2 hma hidx hinv hrun
    unfold i32_store at hrun
    rw [hma] at hrun
    dsimp only at hrun
    rw [hidx] at hrun
    dsimp only at hrun
    cases hp : stack.popI32 with
    | none => rw [hp] at hrun; simp at hrun
    | some p =>
      rw [hp] at hrun
      obtain ⟨c, s1⟩ := p
      dsimp only at hrun
      exact store_finish_preserves offset a 4 (le_bytes_i32 c) mem store s1 s2 st2
        hidx hinv hrun
  · intro offset inst a mem store stack s2 st2 hma hidx hinv hrun
    unfold i64_store at hrun
    rw [hma] at hrun
    dsimp only at hrun
    rw [hidx] at hrun
    dsimp only at hrun
    cases hp : stack.popI64 with
    | none => rw [hp] at hrun; simp at hrun
    | some p =>
      rw [hp] at hrun
      obtain ⟨c, s1⟩ := p
      dsimp only at hrun
      exact store_finish_preserves offset a 8 (le_bytes_n 8 (u64OfI64 c)) mem store s1 s2 st2
        hidx hinv hrun
  · intro offset inst a mem store stack s2 st2 hma hidx hinv hrun
    unfold f32_store at hrun
    rw [hma] at hrun
    dsimp only at hrun
    rw [hidx] at hrun
    dsimp only at hrun
    cases hp : stack.popF32 with
    | none => rw [hp] at hrun; simp at hrun
    | some p =>
      rw [hp] at hrun
      obtain ⟨c, s1⟩ := p
      dsimp only at hrun
      exact store_finish_preserves offset a 4 (le_bytes_n 4 c) mem store s1 s2 st2
        hidx hinv hrun
  · intro offset inst a mem store stack s2 st2 hma hidx hinv hrun
    unfold f64_store at hrun
    rw [hma] at hrun
    dsimp only at hrun
    rw [hidx] at hrun
    dsimp only at hrun
    cases hp : stack.popF64 with
    | none => rw [hp] at hrun; simp at hrun
    | some p =>
      rw [hp] at hrun
      obtain ⟨c, s1⟩ := p
      dsimp only at hrun
      exact store_finish_preserves offset a 8 (le_bytes_n 8 c) mem store s1 s2 st2
        hidx hinv hrun
  · intro offset inst a mem store stack s2 st2 hma hidx hinv hrun
    unfold i32_store_8 at hrun
    rw [hma] at hrun
    dsimp only at hrun
    rw [hidx] at hrun
    dsimp only at hrun
    cases hp : stack.popI32 with
    | none => rw [hp] at hrun; simp at hrun
    | some p =>
      rw [hp] at hrun
      obtain ⟨c, s1⟩ := p
      dsimp only at hrun
      exact store_finish_preserves offset a 1 (le_bytes_n 1 (u32OfI32 c)) mem store s1 s2 st2
        hidx hinv hrun
  · intro offset inst a mem store stack s2 st2 hma hidx hinv hrun
    unfold i32_store_16 at hrun
    rw [hma] at hrun
    dsimp only at hrun
    rw [hidx] at hrun
    dsimp only at hrun
    cases hp : stack.popI32 with
    | none => rw [hp] at hrun; simp at hrun
    | some p =>
      rw [hp] at hrun
      obtain ⟨c, s1⟩ := p
      dsimp only at hrun
      exact store_finish_preserves offset a 2 (le_bytes_n 2 (u32OfI32 c)) mem store s1 s2 st2
        hidx hinv hrun
  · intro offset inst a mem store stack s2 st2 hma hidx hinv hrun
    unfold i64_store_8 at hrun
    rw [hma] at hrun
    dsimp only at hrun
    rw [hidx] at hrun
    dsimp only at hrun
    cases hp : stack.popI64 with
    | none => rw [hp] at hrun; simp at hrun
    | some p =>
      rw [hp] at hrun
      obtain ⟨c, s1⟩ := p
      dsimp only at hrun
      exact store_finish_preserves offset a 1 (le_bytes_n 1 (u64OfI64 c)) mem store s1 s2 st2
        hidx hinv hrun
  · intro offset inst a mem store stack s2 st2 hma hidx hinv hrun
    unfold i64_store_16 at hrun
    rw [hma] at hrun
    dsimp only at hrun
    rw [hidx] at hrun
    dsimp only at hrun
    cases hp : stack.popI64 with
    | none => rw [hp] at hrun; simp at hrun
    | some p =>
      rw [hp] at hrun
      obtain ⟨c, s1⟩ := p
      dsimp only at hrun
      exact store_finish_preserves offset a 2 (le_bytes_n 2 (u64OfI64 c)) mem store s1 s2 st2
        hidx hinv hrun
  · intro offset inst a mem store stack s2 st2 hma hidx hinv hrun
    unfold i64_store_32 at hrun
    rw [hma] at hrun
    dsimp only at hrun
    rw [hidx] at hrun
    dsimp only at hrun
    cases hp : stack.popI64 with
    | none => rw [hp] at hrun; simp at hrun
    | some p =>
      rw [hp] at hrun
      obtain ⟨c, s1⟩ := p
      dsimp only at hrun
      exact store_finish_preserves offset a 4 (le_bytes_n 4 (u64OfI64 c)) mem store s1 s2 st2
        hidx hinv hrun
  · intro inst a mem store stack s2 st2 hma hidx hinv hrun
    unfold memory_fill at hrun
    rw [hma] at hrun
    dsimp only at hrun
    rw [hidx] at hrun
    dsimp only at hrun
    cases h1 : stack.popI32 with
    | none => rw [h1] at hrun; simp at hrun
    | some p1 =>
      rw [h1] at hrun
      obtain ⟨nv, s1⟩ := p1
      dsimp only at hrun
      cases h2 : s1.popI32 with
      | none => rw [h2] at hrun; simp at hrun
      | some p2 =>
        rw [h2] at hrun
        obtain ⟨valv, s2p⟩ := p2
        dsimp only at hrun
        cases h3 : s2p.popI32 with
        | none => rw [h3] at hrun; simp at hrun
        | some p3 =>
          rw [h3] at hrun
          obtain ⟨dv, s3⟩ := p3
          dsimp only at hrun
          split at hrun
          · simp at hrun
          · split at hrun
            · obtain ⟨hs, -⟩ := Prod.mk.injEq .. ▸ (Res.ok.injEq .. ▸ hrun)
              subst hs
              intro mem2 hmem2
              rw [hidx] at hmem2
              cases hmem2
              exact hinv
            · cases hloop : mem_fill_loop (usizeOfI32 dv) valv 0 (usizeOfI32 nv)
                  mem.data with
              | none => rw [hloop] at hrun; simp at hrun
              | some d2 =>
                rw [hloop] at hrun
                dsimp only at hrun
                obtain ⟨hs, -⟩ := Prod.mk.injEq .. ▸ (Res.ok.injEq .. ▸ hrun)
                subst hs
                exact setMem_invariant store a mem d2 hidx hinv
                  (mem_fill_loop_length _ _ _ _ _ _ hloop)
  · intro inst a mem store stack s2 st2 hma hidx hinv hrun
    unfold memory_copy at hrun
    rw [hma] at hrun
    dsimp only at hrun
    rw [hidx] at hrun
    dsimp only at hrun
    cases h1 : stack.popI32 with
    | none => rw [h1] at hrun; simp at hrun
    | some p1 =>
      rw [h1] at hrun
      obtain ⟨nv, s1⟩ := p1
      dsimp only at hrun
      cases h2 : s1.popI32 with
      | none => rw [h2] at hrun; simp at hrun
      | some p2 =>
        rw [h2] at hrun
        obtain ⟨sv, s2p⟩ := p2
        dsimp only at hrun
        cases h3 : s2p.popI32 with
        | none => rw [h3] at hrun; simp at hrun
        | some p3 =>
          rw [h3] at hrun
          obtain ⟨dv, s3⟩ := p3
          dsimp only at hrun
          split at hrun
          · simp at hrun
          · split at hrun
            · obtain ⟨hs, -⟩ := Prod.mk.injEq .. ▸ (Res.ok.injEq .. ▸ hrun)
              subst hs
              intro mem2 hmem2
              rw [hidx] at hmem2
              cases hmem2
              exact hinv
            · cases hloop : mem_copy_loop (usizeOfI32 dv) (usizeOfI32 sv) 0
                  (usizeOfI32 nv) mem.data with
              | none => rw [hloop] at hrun; simp at hrun
              | some d2 =>
                rw [hloop] at hrun
                dsimp only at hrun
                obtain ⟨hs, -⟩ := Prod.mk.injEq .. ▸ (Res.ok.injEq .. ▸ hrun)
                subst hs
                exact setMem_invariant store a mem d2 hidx hinv
                  (mem_copy_loop_length _ _ _ _ _ _ hloop)
  · intro x inst a mem store stack s2 st2 hma hidx hinv hrun
    unfold memory_init at hrun
    rw [hma] at hrun
    dsimp only at hrun
    rw [hidx] at hrun
    dsimp only at hrun
    cases hda : inst.dataaddrs.get? x with
    | none => rw [hda] at hrun; simp at hrun
    | some da =>
      rw [hda] at hrun
      dsimp only at hrun
      cases hseg : store.datas.idx? da with
      | none => rw [hseg] at hrun; simp at hrun
      | some dataSeg =>
        rw [hseg] at hrun
        dsimp only at hrun
        cases h1 : stack.popI32 with
        | none => rw [h1] at hrun; simp at hrun
        | some p1 =>
          rw [h1] at hrun
          obtain ⟨nv, s1⟩ := p1
          dsimp only at hrun
          cases h2 : s1.popI32 with
          | none => rw [h2] at hrun; simp at hrun
          | some p2 =>
            rw [h2] at hrun
            obtain ⟨sv, s2p⟩ := p2
            dsimp only at hrun
            cases h3 : s2p.popI32 with
            | none => rw [h3] at hrun; simp at hrun
            | some p3 =>
              rw [h3] at hrun
              obtain ⟨dv, s3⟩ := p3
              dsimp only at hrun
              split at hrun
              · simp at hrun
              · split at hrun
                · obtain ⟨hs, -⟩ := Prod.mk.injEq .. ▸ (Res.ok.injEq .. ▸ hrun)
                  subst hs
                  intro mem2 hmem2
                  rw [hidx] at hmem2
                  cases hmem2
                  exact hinv
                · cases hloop : mem_init_loop (usizeOfI32 dv) (usizeOfI32 sv)
                      dataSeg.data 0 (usizeOfI32 nv) mem.data with
                  | none => rw [hloop] at hrun; simp at hrun
                  | some d2 =>
                    rw [hloop] at hrun
                    dsimp only at hrun
                    obtain ⟨hs, -⟩ := Prod.mk.injEq .. ▸ (Res.ok.injEq .. ▸ hrun)
                    subst hs
                    exact setMem_invariant store a mem d2 hidx hinv
                      (mem_init_loop_length _ _ _ _ _ _ _ hloop)

set_option maxRecDepth 8192 in
theorem c8_memory_invariant_amended_witness :
    memInvariant ⟨Limits.Min 2, List.replicate 65536 0 ++ List.replicate 65536 0⟩ :=
  c8_memory_invariant_amended.2.1 instM 0 ⟨.Min 1, List.replicate 65536 0⟩ storeM1
    1 [] [] []
    { NewStore.empty with
      mems := OptVec.ofList
        [⟨.Min 2, List.replicate 65536 0 ++ List.replicate 65536 0⟩] }
    ⟨[Value.I32 1], [], []⟩
    rfl rfl
    (by unfold memInvariant; rw [List.length_replicate]; rfl)
    (by norm_num [u32OfI32, Limits.min]) (by norm_num [u32OfI32, PAGE_SIZE])
    rfl _ rfl

/-- Claim C9: at a host `Call` the older stepper hands the popped
parameters over WITHOUT reversing, so a host answering with the first
parameter it received sees `2` (the SECOND pushed argument); the newer
`attach` reverses the popped values and the same host sees `1` (the
first pushed argument — natural order, as the claim states). -/
theorem c9_host_param_order :
    oldStep env9old [inst0] [.Call 0] 0 ⟨[.HostFunc ft9 "f"], []⟩
      ⟨[Value.I32 2, Value.I32 1], [], [f0]⟩ =
      .ok (some 1, ⟨[.HostFunc ft9 "f"], []⟩, ⟨[Value.I32 2], [], [f0]⟩) ∧
    attach env9new (.HostFunc ft9 "f") ⟨[Value.I32 2, Value.I32 1], [], []⟩ none 0 =
      .ok (none, ⟨[Value.I32 1], [], []⟩) :=
  ⟨rfl, rfl⟩

/-- Claim C10: `invoke` installs the caller's params verbatim as the
new frame's locals: the export `(func (param i32) (result i32)
local.get 0)` invoked with NO arguments reaches a Rust panic instead of
returning an error, while the same export invoked with one argument
echoes it; and a parameterless function with a declared local reading
that local panics under `invoke`, because the zero-initialised local
slots appended at `Call` sites are not appended by `invoke`. -/
theorem c10_invoke_params_verbatim :
    invokeModule mC10 "main" [] 16 = some .panic ∧
    invokeModule mC10 "main" [Value.I32 7] 16 = some (.ok [Value.I32 7]) ∧
    invokeModule mC10b "main" [] 16 = some .panic :=
  ⟨rfl, rfl, rfl⟩

end Wasp
